import Mathlib

/-!
# Drill-file dialog of pcbnew (`pcbnew/dialogs/dialog_gendrill.cpp`)

A shallow embedding of `DIALOG_GENDRILL`: the dialog object is a record of its
static members, data members and widgets; every member function is a pure
function on that record.  Calls that leave the dialog (the drill writers, the
message panel, the error box, the directory helper) are recorded, in program
order, in a list of `Event`s.

Library behaviour that is not part of the repository (wxWidgets path handling,
`EnsureFileDirectoryExists`, `DRILL_PRECISION::GetPrecisionString`) is taken as
a parameter, bundled in `Env`.

The File menu of Eeschema (`eeschema/menubar.cpp`, `prepareFilesMenu`) is
embedded the same way, in the namespace `Eeschema`: a menu is the list of calls
made on it.
-/

namespace GenDrill

/-! ## Board data model -/

/-- The wxWidgets integer point (`wxPoint`). -/
structure wxPoint where
  x : Int
  y : Int
deriving DecidableEq, Repr

/-- The wxWidgets integer size (`wxSize`), as returned by `D_PAD::GetDrillSize`. -/
structure wxSize where
  x : Int
  y : Int
deriving DecidableEq, Repr

/-- Modelled from the spec: the drill-shape enumeration `PAD_DRILL_SHAPE_T` is declared in a
header that is not under src/.  The source names one enumerator, `PAD_DRILL_SHAPE_CIRCLE`
(the spec: "circular"); every other enumerator (the spec: "slotted") takes the `else`
branch of the source and is kept abstract as `other n`. -/
inductive PAD_DRILL_SHAPE_T where
  | PAD_DRILL_SHAPE_CIRCLE
  | other (n : Nat)
deriving DecidableEq, Repr

/-- Modelled from the spec: the pad attribute enumeration `PAD_ATTR_T` is declared in a
header that is not under src/.  The source names one enumerator,
`PAD_ATTRIB_HOLE_NOT_PLATED`; every other attribute is kept abstract as `other n`. -/
inductive PAD_ATTR_T where
  | PAD_ATTRIB_HOLE_NOT_PLATED
  | other (n : Nat)
deriving DecidableEq, Repr

/-- The part of a pad (`D_PAD`) the dialog reads: `GetDrillShape()`, `GetDrillSize()`
and `GetAttribute()`. -/
structure D_PAD where
  GetDrillShape : PAD_DRILL_SHAPE_T
  GetDrillSize : wxSize
  GetAttribute : PAD_ATTR_T
deriving DecidableEq, Repr

/-- A footprint (`MODULE`): its linked list of pads, `PadsList()` followed by `Next()`. -/
structure MODULE where
  PadsList : List D_PAD
deriving DecidableEq, Repr

/-- Modelled from the spec: the via-type enumeration `VIATYPE_T` is declared in a header that
is not under src/.  The source names `VIA_THROUGH`, `VIA_MICROVIA` and `VIA_BLIND_BURIED`
(the spec: through / micro / blind-or-buried); any other value reaches the `default:`
label of the switch and is kept abstract as `other n`. -/
inductive VIATYPE_T where
  | VIA_THROUGH
  | VIA_MICROVIA
  | VIA_BLIND_BURIED
  | other (n : Nat)
deriving DecidableEq, Repr

/-- An element of the board's track list.  `dynamic_cast<const VIA*>( track )` succeeds
exactly on `via`; `segment` stands for every `TRACK` that is not a `VIA`. -/
inductive TRACK where
  | segment
  | via (GetViaType : VIATYPE_T)
deriving DecidableEq, Repr

/-- The plot parameters (`PCB_PLOT_PARAMS`) as far as the dialog reads or writes them. -/
structure PCB_PLOT_PARAMS where
  outputDirectory : String
  useAuxOrigin : Bool
  gerberPrecision : Int
deriving DecidableEq, Repr

/-- The board (`BOARD`): module list `m_Modules`, track list `m_Track`, file name and the
plot options stored in the board (`SetPlotOptions`). -/
structure BOARD where
  m_Modules : List MODULE
  m_Track : List TRACK
  fileName : String
  plotOptions : PCB_PLOT_PARAMS
deriving DecidableEq, Repr

/-- The editor frame (`PCB_EDIT_FRAME`) as far as the dialog reads it: `GetAuxOrigin()`. -/
structure PCB_EDIT_FRAME where
  auxOrigin : wxPoint
deriving DecidableEq, Repr

/-! ## Values used by the dialog -/

/-- The precision pair `DRILL_PRECISION( l, r )` with its members `m_lhs` and `m_rhs`. -/
structure DRILL_PRECISION where
  m_lhs : Int
  m_rhs : Int
deriving DecidableEq, Repr

/-- The static `precisionListForInches( 2, 4 )`. -/
def precisionListForInches : DRILL_PRECISION := ⟨2, 4⟩

/-- The static `precisionListForMetric( 3, 3 )`. -/
def precisionListForMetric : DRILL_PRECISION := ⟨3, 3⟩

/-- Modelled from the spec: the enumerator `EXCELLON_WRITER::DECIMAL_FORMAT` is declared in a
header that is not under src/.  The spec lists the zero-suppression modes as
`Decimal | SuppressLeading | SuppressTrailing | KeepAll`; `Decimal` is the first one. -/
def EXCELLON_WRITER.DECIMAL_FORMAT : Int := 0

/-- The plot formats named by the table `filefmt` of `GenDrillAndMapFiles`. -/
inductive PlotFormat where
  | PLOT_FORMAT_HPGL
  | PLOT_FORMAT_POST
  | PLOT_FORMAT_GERBER
  | PLOT_FORMAT_DXF
  | PLOT_FORMAT_SVG
  | PLOT_FORMAT_PDF
deriving DecidableEq, Repr

/-- A file name object (`wxFileName`): directory part, base name and extension. -/
structure wxFileName where
  path : String
  name : String
  ext : String
deriving DecidableEq, Repr

/-- The wxWidgets accessor `wxFileName::GetName()`: the base name, without extension. -/
def wxFileName.GetName (fn : wxFileName) : String := fn.name

/-- The wxWidgets mutator `wxFileName::SetName( name )`. -/
def wxFileName.SetName (fn : wxFileName) (name : String) : wxFileName :=
  { fn with name := name }

/-- The wxWidgets mutator `wxFileName::SetExt( ext )`: the object has an extension
afterwards exactly when `ext` is not empty. -/
def wxFileName.SetExt (fn : wxFileName) (ext : String) : wxFileName :=
  { fn with ext := ext }

/-- The wxWidgets accessor `wxFileName::GetFullName()` of an object whose extension was
stored by `SetExt`: the name, followed by a dot and the extension when there is one. -/
def wxFileName.GetFullName (fn : wxFileName) : String :=
  if fn.ext = "" then fn.name else fn.name ++ "." ++ fn.ext

/-! ## Widgets

Each widget returns from its getter the value last stored by its setter. -/

/-- A `wxChoice`: `GetSelection()` / `SetSelection( n )` and `Enable( b )`. -/
structure wxChoice where
  selection : Int
  enabled : Bool
deriving DecidableEq, Repr

/-- A `wxCheckBox`: `IsChecked()` / `SetValue( b )` and `Enable( b )`. -/
structure wxCheckBox where
  value : Bool
  enabled : Bool
deriving DecidableEq, Repr

/-- A `wxRadioButton`: `GetValue()` / `SetValue( b )`. -/
structure wxRadioButton where
  value : Bool
deriving DecidableEq, Repr

/-- A `wxRadioBox`: `GetSelection()` / `SetSelection( n )` and `Enable( b )`. -/
structure wxRadioBox where
  selection : Int
  enabled : Bool
deriving DecidableEq, Repr

/-- A `wxStaticText`: `SetLabel( s )` and `Enable( b )`. -/
structure wxStaticText where
  label : String
  enabled : Bool
deriving DecidableEq, Repr

/-- A `wxTextCtrl`: `GetValue()` / `SetValue( s )`. -/
structure wxTextCtrl where
  value : String
deriving DecidableEq, Repr

/-- The project configuration (`m_config`): one optional entry per key of the file. -/
structure wxConfigBase where
  DrillZerosFormat : Option Int
  DrillMirrorYOpt : Option Bool
  DrillMinHeader : Option Bool
  DrillMergePTHNPTH : Option Bool
  DrillUnit : Option Int
  DrillMapFileType : Option Int
  DrillFileType : Option Int
  OvalHolesRouteMode : Option Bool
deriving DecidableEq, Repr

/-! ## The dialog -/

/-- The five hole counters of the dialog.  They are C++ `int`s; the model counts in `Nat`,
which agrees with the program on every board with fewer than `2^31` holes of each class. -/
structure HoleCounts where
  m_platedPadsHoleCount : Nat
  m_notplatedPadsHoleCount : Nat
  m_throughViasCount : Nat
  m_microViasCount : Nat
  m_blindOrBuriedViasCount : Nat
deriving DecidableEq, Repr

/-- The state of `DIALOG_GENDRILL`: static members, data members, the objects it points to
(`m_board`, `m_pcbEditFrame`, `m_config`) and its widgets. -/
structure DIALOG_GENDRILL where
  -- static members
  m_UnitDrillIsInch : Int
  m_ZerosFormat : Int
  m_MinimalHeader : Bool
  m_Mirror : Bool
  m_Merge_PTH_NPTH : Bool
  m_mapFileType : Int
  m_drillFileType : Int
  m_UseRouteModeForOvalHoles : Bool
  -- data members
  m_drillOriginIsAuxAxis : Bool
  m_FileDrillOffset : wxPoint
  m_Precision : DRILL_PRECISION
  counts : HoleCounts
  m_plotOpts : PCB_PLOT_PARAMS
  m_board : BOARD
  m_pcbEditFrame : PCB_EDIT_FRAME
  m_config : wxConfigBase
  -- widgets
  m_rbExcellon : wxRadioButton
  m_rbGerberX2 : wxRadioButton
  m_Choice_Unit : wxChoice
  m_Choice_Zeros_Format : wxChoice
  m_Check_Minimal : wxCheckBox
  m_Choice_Drill_Offset : wxChoice
  m_Check_Mirror : wxCheckBox
  m_Check_Merge_PTH_NPTH : wxCheckBox
  m_Choice_Drill_Map : wxChoice
  m_radioBoxOvalHoleMode : wxRadioBox
  m_staticTextPrecision : wxStaticText
  m_PlatedPadsCountInfoMsg : wxStaticText
  m_NotPlatedPadsCountInfoMsg : wxStaticText
  m_ThroughViasInfoMsg : wxStaticText
  m_MicroViasInfoMsg : wxStaticText
  m_BuriedViasInfoMsg : wxStaticText
  m_outputDirectoryName : wxTextCtrl
deriving DecidableEq, Repr

/-- Library functions the dialog calls and the repository does not define. -/
structure Env where
  /-- The text of `DRILL_PRECISION::GetPrecisionString()`. -/
  GetPrecisionString : DRILL_PRECISION → String
  /-- The object built by `wxFileName::DirName( dir )`. -/
  DirName : String → wxFileName
  /-- The call `EnsureFileDirectoryExists( &target, baseFilename, reporter )`: the returned
  flag and the target as the call leaves it. -/
  EnsureFileDirectoryExists : wxFileName → String → Bool × wxFileName
  /-- The text of `wxFileName::GetPath()`. -/
  GetPath : wxFileName → String
  /-- The text of `wxFileName::GetFullPath()`. -/
  GetFullPath : wxFileName → String
  /-- The object built from a full path by the constructor `wxFileName( fullpath )`. -/
  fileNameOf : String → wxFileName
  /-- The constant `ReportFileExtension`, declared outside the two source files. -/
  ReportFileExtension : String
  /-- The text of `Prj().AbsolutePath( path )`. -/
  AbsolutePath : String → String
  /-- The text of `wxStandardPaths::Get().GetDocumentsDir()`. -/
  GetDocumentsDir : String
  /-- The save dialog opened on a default directory and a default file name: `none` when
  `ShowModal()` returns `wxID_CANCEL`, otherwise the text of `GetPath()`. -/
  ShowModal : String → String → Option String
  /-- The flag returned by `EXCELLON_WRITER::GenDrillReportFile( path )` for a writer built
  on the board and given the merge option. -/
  EXCELLON_GenDrillReportFile : BOARD → Bool → String → Bool
  /-- The flag returned by `GERBER_WRITER::GenDrillReportFile( path )` for a writer built on
  the board. -/
  GERBER_GenDrillReportFile : BOARD → String → Bool

/-- What leaves the dialog during `GenDrillAndMapFiles` and `OnGenReportFile`, one
constructor per call. -/
inductive Event where
  | ClearMsgPanel
  | EnsureFileDirectoryExists (target : wxFileName) (boardFilename : String)
  | DisplayError (folder : String)
  | EXCELLON_SetFormat (aMetric : Bool) (aZerosFmt : Int) (aLeftDigits aRightDigits : Int)
  | EXCELLON_SetOptions (aMirror aMinimalHeader : Bool) (aOffset : wxPoint) (aMerge_PTH_NPTH : Bool)
  | EXCELLON_SetRouteModeForOvalHoles (aUseRouteModeForOvalHoles : Bool)
  | EXCELLON_SetMapFileFormat (aMapFmt : PlotFormat)
  | EXCELLON_CreateDrillandMapFilesSet (aPlotDirectory : String) (aGenDrill aGenMap : Bool)
  | GERBER_SetFormat (aRightDigits : Int)
  | GERBER_SetOptions (aOffset : wxPoint)
  | GERBER_SetMapFileFormat (aMapFmt : PlotFormat)
  | GERBER_CreateDrillandMapFilesSet (aPlotDirectory : String) (aGenDrill aGenMap : Bool)
  | wxFileDialog_ShowModal (defaultDir defaultFile : String)
  | EXCELLON_SetMergeOption (aMerge : Bool)
  | EXCELLON_GenDrillReportFile (aFullFileName : String)
  | GERBER_GenDrillReportFile (aFullFileName : String)
  | AppendText (text : String)
deriving DecidableEq, Repr

/-! ## Hole counting (`InitDisplayParams`, the two loops) -/

/-- The five counters after `m_platedPadsHoleCount = 0; ... m_blindOrBuriedViasCount = 0;`. -/
def HoleCounts.zero : HoleCounts := ⟨0, 0, 0, 0, 0⟩

/-- The shared inner statement of the pad loop:
`if( pad->GetAttribute() == PAD_ATTRIB_HOLE_NOT_PLATED ) m_notplatedPadsHoleCount++;
 else m_platedPadsHoleCount++;`. -/
def countPlating (c : HoleCounts) (pad : D_PAD) : HoleCounts :=
  if pad.GetAttribute = PAD_ATTR_T.PAD_ATTRIB_HOLE_NOT_PLATED then
    { c with m_notplatedPadsHoleCount := c.m_notplatedPadsHoleCount + 1 }
  else
    { c with m_platedPadsHoleCount := c.m_platedPadsHoleCount + 1 }

/-- The body of the inner `for( D_PAD* pad ... )` loop of `InitDisplayParams`. -/
def countPad (c : HoleCounts) (pad : D_PAD) : HoleCounts :=
  if pad.GetDrillShape = PAD_DRILL_SHAPE_T.PAD_DRILL_SHAPE_CIRCLE then
    if pad.GetDrillSize.x ≠ 0 then countPlating c pad else c
  else
    if pad.GetDrillSize.x ≠ 0 ∧ pad.GetDrillSize.y ≠ 0 then countPlating c pad else c

/-- The body of the outer `for( MODULE* module ... )` loop: the inner loop over the pads. -/
def countModule (c : HoleCounts) (module : MODULE) : HoleCounts :=
  module.PadsList.foldl countPad c

/-- The body of the `for( TRACK* track ... )` loop of `InitDisplayParams`. -/
def countTrack (c : HoleCounts) (track : TRACK) : HoleCounts :=
  match track with
  | TRACK.segment => c
  | TRACK.via VIATYPE_T.VIA_THROUGH =>
      { c with m_throughViasCount := c.m_throughViasCount + 1 }
  | TRACK.via VIATYPE_T.VIA_MICROVIA =>
      { c with m_microViasCount := c.m_microViasCount + 1 }
  | TRACK.via VIATYPE_T.VIA_BLIND_BURIED =>
      { c with m_blindOrBuriedViasCount := c.m_blindOrBuriedViasCount + 1 }
  | TRACK.via (VIATYPE_T.other _) => c

/-- The counting part of `InitDisplayParams`: reset of the five counters, the loop over the
modules and their pads, then the loop over the tracks. -/
def countHoles (board : BOARD) : HoleCounts :=
  board.m_Track.foldl countTrack (board.m_Modules.foldl countModule HoleCounts.zero)

/-- All pads of the board in the order the two nested loops visit them. -/
def allPads (board : BOARD) : List D_PAD :=
  (board.m_Modules.map MODULE.PadsList).flatten

/-- The inclusion condition in the words of the specification: the drill shape is circular
and drill size x is non-zero, or the drill shape is not circular and both drill size x and
drill size y are non-zero. -/
def padHasHole (pad : D_PAD) : Bool :=
  (decide (pad.GetDrillShape = PAD_DRILL_SHAPE_T.PAD_DRILL_SHAPE_CIRCLE)
      && decide (pad.GetDrillSize.x ≠ 0))
  || (decide (pad.GetDrillShape ≠ PAD_DRILL_SHAPE_T.PAD_DRILL_SHAPE_CIRCLE)
      && decide (pad.GetDrillSize.x ≠ 0) && decide (pad.GetDrillSize.y ≠ 0))

/-- The pad attribute is `PAD_ATTRIB_HOLE_NOT_PLATED`. -/
def padNotPlated (pad : D_PAD) : Bool :=
  decide (pad.GetAttribute = PAD_ATTR_T.PAD_ATTRIB_HOLE_NOT_PLATED)

/-- The track element is a via of the given type. -/
def isViaOfType (t : VIATYPE_T) (track : TRACK) : Bool :=
  decide (track = TRACK.via t)

/-- The track element is a via (the `dynamic_cast` succeeds). -/
def isVia (track : TRACK) : Bool :=
  match track with
  | TRACK.segment => false
  | TRACK.via _ => true

/-! ## Member functions of the dialog -/

namespace DIALOG_GENDRILL

/-- The member function `UpdatePrecisionOptions()`: the label is chosen by the first
`if`, the enabled state by the second. -/
def UpdatePrecisionOptions (env : Env) (d : DIALOG_GENDRILL) : DIALOG_GENDRILL :=
  { d with
    m_staticTextPrecision :=
      { label :=
          if d.m_Choice_Unit.selection = 1 then
            env.GetPrecisionString precisionListForInches
          else
            env.GetPrecisionString precisionListForMetric
        enabled :=
          if d.m_Choice_Zeros_Format.selection = EXCELLON_WRITER.DECIMAL_FORMAT then false
          else true } }

/-- The event handler `onFileFormatSelection( event )`; the event itself is not read. -/
def onFileFormatSelection (env : Env) (d : DIALOG_GENDRILL) : DIALOG_GENDRILL :=
  let enbl_Excellon := d.m_rbExcellon.value
  let d1 : DIALOG_GENDRILL :=
    { d with
      m_drillFileType := if enbl_Excellon then 0 else 1
      m_Choice_Unit := { d.m_Choice_Unit with enabled := enbl_Excellon }
      m_Choice_Zeros_Format := { d.m_Choice_Zeros_Format with enabled := enbl_Excellon }
      m_Check_Mirror := { d.m_Check_Mirror with enabled := enbl_Excellon }
      m_Check_Minimal := { d.m_Check_Minimal with enabled := enbl_Excellon }
      m_Check_Merge_PTH_NPTH := { d.m_Check_Merge_PTH_NPTH with enabled := enbl_Excellon }
      m_radioBoxOvalHoleMode := { d.m_radioBoxOvalHoleMode with enabled := enbl_Excellon } }
  if enbl_Excellon then
    UpdatePrecisionOptions env d1
  else
    { d1 with m_staticTextPrecision :=
        { label := if d1.m_plotOpts.gerberPrecision = 6 then "4.6" else "4.5"
          enabled := true } }

/-- The member function `InitDisplayParams()`.  The bitmap of the browse button is not part
of the state. -/
def InitDisplayParams (env : Env) (d : DIALOG_GENDRILL) : DIALOG_GENDRILL :=
  let d1 : DIALOG_GENDRILL :=
    { d with
      m_rbExcellon := { value := decide (d.m_drillFileType = 0) }
      m_rbGerberX2 := { value := decide (d.m_drillFileType = 1) }
      m_Choice_Unit :=
        { d.m_Choice_Unit with selection := if d.m_UnitDrillIsInch ≠ 0 then 1 else 0 }
      m_Choice_Zeros_Format := { d.m_Choice_Zeros_Format with selection := d.m_ZerosFormat } }
  let d2 := UpdatePrecisionOptions env d1
  let d3 : DIALOG_GENDRILL :=
    { d2 with m_Check_Minimal := { d2.m_Check_Minimal with value := d2.m_MinimalHeader } }
  let d4 : DIALOG_GENDRILL :=
    { d3 with
      m_Choice_Drill_Offset :=
        if d3.m_drillOriginIsAuxAxis then { d3.m_Choice_Drill_Offset with selection := 1 }
        else d3.m_Choice_Drill_Offset }
  let d5 : DIALOG_GENDRILL :=
    { d4 with
      m_Check_Mirror := { d4.m_Check_Mirror with value := d4.m_Mirror }
      m_Check_Merge_PTH_NPTH := { d4.m_Check_Merge_PTH_NPTH with value := d4.m_Merge_PTH_NPTH }
      m_Choice_Drill_Map := { d4.m_Choice_Drill_Map with selection := d4.m_mapFileType }
      m_radioBoxOvalHoleMode :=
        { d4.m_radioBoxOvalHoleMode with
          selection := if d4.m_UseRouteModeForOvalHoles then 0 else 1 } }
  let d6 : DIALOG_GENDRILL := { d5 with counts := countHoles d5.m_board }
  let d7 : DIALOG_GENDRILL :=
    { d6 with
      m_PlatedPadsCountInfoMsg :=
        { d6.m_PlatedPadsCountInfoMsg with label := toString d6.counts.m_platedPadsHoleCount }
      m_NotPlatedPadsCountInfoMsg :=
        { d6.m_NotPlatedPadsCountInfoMsg with
          label := toString d6.counts.m_notplatedPadsHoleCount }
      m_ThroughViasInfoMsg :=
        { d6.m_ThroughViasInfoMsg with label := toString d6.counts.m_throughViasCount }
      m_MicroViasInfoMsg :=
        { d6.m_MicroViasInfoMsg with label := toString d6.counts.m_microViasCount }
      m_BuriedViasInfoMsg :=
        { d6.m_BuriedViasInfoMsg with label := toString d6.counts.m_blindOrBuriedViasCount }
      m_outputDirectoryName := { value := d6.m_plotOpts.outputDirectory } }
  onFileFormatSelection env d7

/-- The member function `initDialog()`: a `Read` leaves its variable as it is when the key
is absent from the configuration. -/
def initDialog (env : Env) (d : DIALOG_GENDRILL) : DIALOG_GENDRILL :=
  let d1 : DIALOG_GENDRILL :=
    { d with
      m_ZerosFormat := d.m_config.DrillZerosFormat.getD d.m_ZerosFormat
      m_Mirror := d.m_config.DrillMirrorYOpt.getD d.m_Mirror
      m_Merge_PTH_NPTH := d.m_config.DrillMergePTHNPTH.getD d.m_Merge_PTH_NPTH
      m_MinimalHeader := d.m_config.DrillMinHeader.getD d.m_MinimalHeader
      m_UnitDrillIsInch := d.m_config.DrillUnit.getD d.m_UnitDrillIsInch
      m_drillOriginIsAuxAxis := d.m_plotOpts.useAuxOrigin
      m_mapFileType := d.m_config.DrillMapFileType.getD d.m_mapFileType
      m_drillFileType := d.m_config.DrillFileType.getD d.m_drillFileType
      m_UseRouteModeForOvalHoles :=
        d.m_config.OvalHolesRouteMode.getD d.m_UseRouteModeForOvalHoles }
  InitDisplayParams env d1

/-- The call `dirStr.Replace( wxT( "\\" ), wxT( "/" ) )`: every backslash (code 92) becomes a
forward slash (code 47). -/
def replaceBackslashes (dirStr : String) : String :=
  ⟨dirStr.data.map (fun c => if c = Char.ofNat 92 then Char.ofNat 47 else c)⟩

/-- The member function `UpdateDrillParams()`.  The `int` returned by `GetSelection()` is
converted to `bool` (non-zero is `true`) when it is stored in `m_drillOriginIsAuxAxis`, and
the `bool` of the unit test becomes `0` or `1` in the `int` `m_UnitDrillIsInch`. -/
def UpdateDrillParams (d : DIALOG_GENDRILL) : DIALOG_GENDRILL :=
  let dirStr := replaceBackslashes d.m_outputDirectoryName.value
  let d1 : DIALOG_GENDRILL :=
    { d with m_plotOpts := { d.m_plotOpts with outputDirectory := dirStr } }
  let d2 : DIALOG_GENDRILL :=
    { d1 with m_drillOriginIsAuxAxis := decide (d1.m_Choice_Drill_Offset.selection ≠ 0) }
  let d3 : DIALOG_GENDRILL :=
    { d2 with m_plotOpts := { d2.m_plotOpts with useAuxOrigin := d2.m_drillOriginIsAuxAxis } }
  let d4 : DIALOG_GENDRILL :=
    { d3 with
      m_mapFileType := d3.m_Choice_Drill_Map.selection
      m_UnitDrillIsInch := if d3.m_Choice_Unit.selection = 0 then 0 else 1
      m_MinimalHeader := d3.m_Check_Minimal.value
      m_Mirror := d3.m_Check_Mirror.value
      m_Merge_PTH_NPTH := d3.m_Check_Merge_PTH_NPTH.value
      m_ZerosFormat := d3.m_Choice_Zeros_Format.selection
      m_UseRouteModeForOvalHoles := decide (d3.m_radioBoxOvalHoleMode.selection = 0) }
  let d5 : DIALOG_GENDRILL :=
    { d4 with
      m_FileDrillOffset :=
        if d4.m_Choice_Drill_Offset.selection = 0 then ⟨0, 0⟩
        else d4.m_pcbEditFrame.auxOrigin }
  let d6 : DIALOG_GENDRILL :=
    { d5 with
      m_Precision :=
        if d5.m_UnitDrillIsInch ≠ 0 then precisionListForInches
        else precisionListForMetric }
  { d6 with m_board := { d6.m_board with plotOptions := d6.m_plotOpts } }

/-- The member function `UpdateConfig()`. -/
def UpdateConfig (d : DIALOG_GENDRILL) : DIALOG_GENDRILL :=
  let d1 := UpdateDrillParams d
  { d1 with
    m_config :=
      { DrillZerosFormat := some d1.m_ZerosFormat
        DrillMirrorYOpt := some d1.m_Mirror
        DrillMergePTHNPTH := some d1.m_Merge_PTH_NPTH
        DrillMinHeader := some d1.m_MinimalHeader
        DrillUnit := some d1.m_UnitDrillIsInch
        DrillMapFileType := some d1.m_mapFileType
        DrillFileType := some d1.m_drillFileType
        OvalHolesRouteMode := some d1.m_UseRouteModeForOvalHoles } }

/-- The local table `filefmt[6]` of `GenDrillAndMapFiles`. -/
def filefmt : List PlotFormat :=
  [ PlotFormat.PLOT_FORMAT_HPGL, PlotFormat.PLOT_FORMAT_POST, PlotFormat.PLOT_FORMAT_GERBER,
    PlotFormat.PLOT_FORMAT_DXF, PlotFormat.PLOT_FORMAT_SVG, PlotFormat.PLOT_FORMAT_PDF ]

/-- The index computed at the top of `GenDrillAndMapFiles`:
`unsigned choice = (unsigned) m_Choice_Drill_Map->GetSelection();
 if( choice >= arrayDim( filefmt ) ) choice = 1;`
with the cast of the 32-bit `int` to `unsigned` as reduction modulo `2^32`. -/
def mapChoice (selection : Int) : Nat :=
  let choice : Nat := (selection % 4294967296).toNat
  if choice ≥ filefmt.length then 1 else choice

/-- The member function `GenDrillAndMapFiles( aGenDrill, aGenMap )`: the dialog after the call
and the calls it made, in order.  `none` stands for a read outside the table `filefmt`. -/
def GenDrillAndMapFiles (env : Env) (d : DIALOG_GENDRILL) (aGenDrill aGenMap : Bool) :
    Option (DIALOG_GENDRILL × List Event) :=
  let d1 := UpdateConfig d
  let choice := mapChoice d1.m_Choice_Drill_Map.selection
  let outputDir := env.DirName d1.m_plotOpts.outputDirectory
  let boardFilename := d1.m_board.fileName
  let r := env.EnsureFileDirectoryExists outputDir boardFilename
  let called : List Event :=
    [Event.ClearMsgPanel, Event.EnsureFileDirectoryExists outputDir boardFilename]
  if r.1 = false then
    some (d1, called ++ [Event.DisplayError (env.GetPath r.2)])
  else if d1.m_drillFileType = 0 then
    match filefmt[choice]? with
    | none => none
    | some fmt =>
      some (d1, called ++
        [ Event.EXCELLON_SetFormat (decide (d1.m_UnitDrillIsInch = 0)) d1.m_ZerosFormat
            d1.m_Precision.m_lhs d1.m_Precision.m_rhs,
          Event.EXCELLON_SetOptions d1.m_Mirror d1.m_MinimalHeader d1.m_FileDrillOffset
            d1.m_Merge_PTH_NPTH,
          Event.EXCELLON_SetRouteModeForOvalHoles d1.m_UseRouteModeForOvalHoles,
          Event.EXCELLON_SetMapFileFormat fmt,
          Event.EXCELLON_CreateDrillandMapFilesSet (env.GetFullPath r.2) aGenDrill aGenMap ])
  else
    match filefmt[choice]? with
    | none => none
    | some fmt =>
      some (d1, called ++
        [ Event.GERBER_SetFormat d1.m_plotOpts.gerberPrecision,
          Event.GERBER_SetOptions d1.m_FileDrillOffset,
          Event.GERBER_SetMapFileFormat fmt,
          Event.GERBER_CreateDrillandMapFilesSet (env.GetFullPath r.2) aGenDrill aGenMap ])

/-- The event handler `OnGenMapFile( event )`. -/
def OnGenMapFile (env : Env) (d : DIALOG_GENDRILL) : Option (DIALOG_GENDRILL × List Event) :=
  GenDrillAndMapFiles env d false true

/-- The event handler `OnGenDrillFile( event )`. -/
def OnGenDrillFile (env : Env) (d : DIALOG_GENDRILL) : Option (DIALOG_GENDRILL × List Event) :=
  GenDrillAndMapFiles env d true false

/-- The text appended to the message box at the end of `OnGenReportFile`. -/
def reportMessage (success : Bool) (path : String) : String :=
  if !success then "** Unable to create " ++ path ++ " **\n"
  else "Report file " ++ path ++ " created\n"

/-- The event handler `OnGenReportFile( event )`: the dialog after the call and the calls it
made, in order.  The writers are built on `m_board`; what they do with it is theirs. -/
def OnGenReportFile (env : Env) (d : DIALOG_GENDRILL) : DIALOG_GENDRILL × List Event :=
  let d1 := UpdateConfig d
  let fn := env.fileNameOf d1.m_board.fileName
  let fn1 := fn.SetName (fn.GetName ++ "-drl")
  let fn2 := fn1.SetExt env.ReportFileExtension
  let defaultPath := env.AbsolutePath d1.m_plotOpts.outputDirectory
  let defaultPath1 := if defaultPath = "" then env.GetDocumentsDir else defaultPath
  let shown : List Event := [Event.wxFileDialog_ShowModal defaultPath1 fn2.GetFullName]
  match env.ShowModal defaultPath1 fn2.GetFullName with
  | none => (d1, shown)
  | some path =>
    if d1.m_drillFileType = 0 then
      (d1, shown ++
        [ Event.EXCELLON_SetMergeOption d1.m_Merge_PTH_NPTH,
          Event.EXCELLON_GenDrillReportFile path,
          Event.AppendText
            (reportMessage
              (env.EXCELLON_GenDrillReportFile d1.m_board d1.m_Merge_PTH_NPTH path) path) ])
    else
      (d1, shown ++
        [ Event.GERBER_GenDrillReportFile path,
          Event.AppendText (reportMessage (env.GERBER_GenDrillReportFile d1.m_board path) path) ])

end DIALOG_GENDRILL

end GenDrill

/-! ## Notions used to state the properties -/

namespace GenDrill

open DIALOG_GENDRILL

/-- The result of the call
`EnsureFileDirectoryExists( &outputDir, boardFilename, &reporter )` that
`GenDrillAndMapFiles` makes when it is entered in state `d`: the flag it tests and the
directory as the call leaves it. -/
def ensureOutputDirectory (env : Env) (d : DIALOG_GENDRILL) : Bool × wxFileName :=
  env.EnsureFileDirectoryExists (env.DirName (UpdateConfig d).m_plotOpts.outputDirectory)
    (UpdateConfig d).m_board.fileName

/-- The map format in the words of the specification: entry `s` of the table (0 HPGL,
1 PostScript, 2 Gerber, 3 DXF, 4 SVG, 5 PDF) when `0 ≤ s ≤ 5`, and the page-description
backend `PLOT_FORMAT_POST` for every other `s`. -/
def expectedMapFormat (s : Int) : PlotFormat :=
  if s = 0 then PlotFormat.PLOT_FORMAT_HPGL
  else if s = 1 then PlotFormat.PLOT_FORMAT_POST
  else if s = 2 then PlotFormat.PLOT_FORMAT_GERBER
  else if s = 3 then PlotFormat.PLOT_FORMAT_DXF
  else if s = 4 then PlotFormat.PLOT_FORMAT_SVG
  else if s = 5 then PlotFormat.PLOT_FORMAT_PDF
  else PlotFormat.PLOT_FORMAT_POST

/-- The member of the valid set {5, 6} nearest to `p`, in the words of the specification. -/
def nearestValidDecimals (p : Int) : Int :=
  if (p - 5).natAbs ≤ (p - 6).natAbs then 5 else 6

/-- The event is a call on one of the two drill writers. -/
def isWriterCall (e : Event) : Bool :=
  match e with
  | Event.ClearMsgPanel => false
  | Event.EnsureFileDirectoryExists _ _ => false
  | Event.DisplayError _ => false
  | Event.EXCELLON_SetFormat _ _ _ _ => true
  | Event.EXCELLON_SetOptions _ _ _ _ => true
  | Event.EXCELLON_SetRouteModeForOvalHoles _ => true
  | Event.EXCELLON_SetMapFileFormat _ => true
  | Event.EXCELLON_CreateDrillandMapFilesSet _ _ _ => true
  | Event.GERBER_SetFormat _ => true
  | Event.GERBER_SetOptions _ => true
  | Event.GERBER_SetMapFileFormat _ => true
  | Event.GERBER_CreateDrillandMapFilesSet _ _ _ => true
  | Event.wxFileDialog_ShowModal _ _ => false
  | Event.EXCELLON_SetMergeOption _ => true
  | Event.EXCELLON_GenDrillReportFile _ => true
  | Event.GERBER_GenDrillReportFile _ => true
  | Event.AppendText _ => false

/-- The event is a call of `CreateDrillandMapFilesSet`, on either writer. -/
def isCreateCall (e : Event) : Bool :=
  match e with
  | Event.EXCELLON_CreateDrillandMapFilesSet _ _ _ => true
  | Event.GERBER_CreateDrillandMapFilesSet _ _ _ => true
  | _ => false

/-- The default file name `OnGenReportFile` hands to the save dialog when it is entered in
state `d`: `fn.GetFullName()` after `SetName` and `SetExt`. -/
def reportDefaultName (env : Env) (d : DIALOG_GENDRILL) : String :=
  (((env.fileNameOf (UpdateConfig d).m_board.fileName).SetName
      ((env.fileNameOf (UpdateConfig d).m_board.fileName).GetName ++ "-drl")).SetExt
    env.ReportFileExtension).GetFullName

/-- The default directory `OnGenReportFile` hands to the save dialog when it is entered in
state `d`. -/
def reportDefaultPath (env : Env) (d : DIALOG_GENDRILL) : String :=
  if env.AbsolutePath (UpdateConfig d).m_plotOpts.outputDirectory = "" then env.GetDocumentsDir
  else env.AbsolutePath (UpdateConfig d).m_plotOpts.outputDirectory

/-- The answer of the save dialog of `OnGenReportFile` entered in state `d`. -/
def reportDialogAnswer (env : Env) (d : DIALOG_GENDRILL) : Option String :=
  env.ShowModal (reportDefaultPath env d) (reportDefaultName env d)

end GenDrill

/-! ## The File menu of Eeschema (`eeschema/menubar.cpp`)

A menu is the sequence of calls made on it, in program order. -/

namespace Eeschema

/-- The command identifiers that `prepareFilesMenu` names. -/
inductive MenuId where
  | ID_NEW_PROJECT
  | ID_LOAD_PROJECT
  /-- The literal `-1` given for the Open Recent submenu. -/
  | minusOne
  | ID_SAVE_PROJECT
  | ID_UPDATE_ONE_SHEET
  | ID_SAVE_ONE_SHEET_UNDER_NEW_NAME
  | ID_APPEND_PROJECT
  | ID_IMPORT_NON_KICAD_SCH
  | ID_BACKANNO_ITEMS
  | ID_GEN_IMPORT_FILE
  | ID_GEN_COPY_SHEET_TO_CLIPBOARD
  | ID_GET_NETLIST
  | ID_GEN_EXPORT_FILE
  | ID_SHEET_SET
  | wxID_PRINT
  | ID_GEN_PLOT_SCHEMATIC
  | wxID_EXIT
deriving DecidableEq, Repr

/-- The hotkey identifiers that `prepareFilesMenu` names. -/
inductive Hotkey where
  | HK_NEW
  | HK_OPEN
  | HK_SAVE
  | HK_SAVEAS
  | HK_PRINT
deriving DecidableEq, Repr

/-- The arguments of one `AddMenuItem` call besides the menu: identifier, text, help string
and the name of the bitmap given to `KiBitmap`. -/
structure MenuEntry where
  id : MenuId
  text : String
  help : String
  bitmap : String
deriving DecidableEq, Repr

/-- One call made on the parent menu. -/
inductive MenuCall where
  /-- The call `AddMenuItem( menu, id, text, help, bitmap )`. -/
  | AddMenuItem (entry : MenuEntry)
  /-- The call `AddMenuItem( menu, submenu, id, text, help, bitmap )`, with the entries the
  submenu holds at that point. -/
  | AddSubMenu (submenu : List MenuEntry) (entry : MenuEntry)
  /-- The call `menu->AppendSeparator()`. -/
  | AppendSeparator
deriving DecidableEq, Repr

/-- What `prepareFilesMenu` takes from outside the source file. -/
structure MenuEnv where
  /-- The translation of a source string, written `_( text )` in the source. -/
  translate : String → String
  /-- The text of `AddHotkeyName( text, g_Schematic_Hotkeys_Descr, hotkey )`. -/
  AddHotkeyName : String → Hotkey → String
  /-- The string constant `HELP_IMPORT_FOOTPRINTS`. -/
  HELP_IMPORT_FOOTPRINTS : String
  /-- The entries the file history puts into `openRecentMenu` (`AddFilesToMenu`). -/
  recentFiles : List MenuEntry

/-- The function `prepareFilesMenu( aParentMenu, aIsOutsideProject )`: the calls made on
`aParentMenu`, after those it already holds.  The registration of the fresh
`openRecentMenu` with the file history only decides the entries of that submenu. -/
def prepareFilesMenu (env : MenuEnv) (aParentMenu : List MenuCall) (aIsOutsideProject : Bool) :
    List MenuCall :=
  let openRecentMenu := env.recentFiles
  let menu1 : List MenuCall :=
    if aIsOutsideProject then
      aParentMenu ++
        [ MenuCall.AddMenuItem
            ⟨MenuId.ID_NEW_PROJECT, env.AddHotkeyName (env.translate "&New...") Hotkey.HK_NEW,
              env.translate "Start new schematic root sheet", "new_document_xpm"⟩,
          MenuCall.AddMenuItem
            ⟨MenuId.ID_LOAD_PROJECT, env.AddHotkeyName (env.translate "&Open...") Hotkey.HK_OPEN,
              env.translate "Open existing schematic", "open_document_xpm"⟩,
          MenuCall.AddSubMenu openRecentMenu
            ⟨MenuId.minusOne, env.translate "Open &Recent",
              env.translate "Open recently opened schematic", "recent_xpm"⟩,
          MenuCall.AppendSeparator ]
    else aParentMenu
  let submenuImport : List MenuEntry :=
    [ ⟨MenuId.ID_BACKANNO_ITEMS, env.translate "&Footprint Association File...",
        env.HELP_IMPORT_FOOTPRINTS, "import_footprint_names_xpm"⟩ ]
  let submenuExport : List MenuEntry :=
    [ ⟨MenuId.ID_GEN_COPY_SHEET_TO_CLIPBOARD, env.translate "Drawing to C&lipboard",
        env.translate "Export drawings to clipboard", "copy_xpm"⟩,
      ⟨MenuId.ID_GET_NETLIST, env.translate "&Netlist...",
        env.translate "Export netlist file", "netlist_xpm"⟩ ]
  menu1 ++
    [ MenuCall.AddMenuItem
        ⟨MenuId.ID_SAVE_PROJECT, env.AddHotkeyName (env.translate "&Save") Hotkey.HK_SAVE,
          env.translate "Save changes", "save_xpm"⟩,
      MenuCall.AddMenuItem
        ⟨MenuId.ID_UPDATE_ONE_SHEET, env.translate "Save &Current Sheet",
          env.translate "Save only the current sheet", "save_xpm"⟩,
      MenuCall.AddMenuItem
        ⟨MenuId.ID_SAVE_ONE_SHEET_UNDER_NEW_NAME,
          env.AddHotkeyName (env.translate "Save C&urrent Sheet As...") Hotkey.HK_SAVEAS,
          env.translate "Save a copy of the current sheet", "save_as_xpm"⟩,
      MenuCall.AppendSeparator,
      MenuCall.AddMenuItem
        ⟨MenuId.ID_APPEND_PROJECT, env.translate "App&end Schematic Sheet Content...",
          env.translate
            "Append schematic sheet content from another project to the current sheet",
          "add_document_xpm"⟩,
      MenuCall.AddMenuItem
        ⟨MenuId.ID_IMPORT_NON_KICAD_SCH, env.translate "&Import Non KiCad Schematic...",
          env.translate
            "Replace current schematic sheet with one imported from another application",
          "import_document_xpm"⟩,
      MenuCall.AppendSeparator,
      MenuCall.AddSubMenu submenuImport
        ⟨MenuId.ID_GEN_IMPORT_FILE, env.translate "&Import", env.translate "Import files",
          "import_xpm"⟩,
      MenuCall.AddSubMenu submenuExport
        ⟨MenuId.ID_GEN_EXPORT_FILE, env.translate "E&xport", env.translate "Export files",
          "export_xpm"⟩,
      MenuCall.AppendSeparator,
      MenuCall.AddMenuItem
        ⟨MenuId.ID_SHEET_SET, env.translate "Page S&ettings...",
          env.translate "Settings for sheet size and frame references", "sheetset_xpm"⟩,
      MenuCall.AddMenuItem
        ⟨MenuId.wxID_PRINT, env.AddHotkeyName (env.translate "&Print...") Hotkey.HK_PRINT,
          env.translate "Print schematic sheet", "print_button_xpm"⟩,
      MenuCall.AddMenuItem
        ⟨MenuId.ID_GEN_PLOT_SCHEMATIC, env.translate "P&lot...",
          env.translate "Plot schematic sheet in PostScript, PDF, SVG, DXF or HPGL format",
          "plot_xpm"⟩,
      MenuCall.AppendSeparator,
      MenuCall.AddMenuItem
        ⟨MenuId.wxID_EXIT, env.translate "&Exit", env.translate "Close Eeschema",
          "exit_xpm"⟩ ]

/-- The identifier a call gives to the menu; a separator has none. -/
def callId (c : MenuCall) : Option MenuId :=
  match c with
  | MenuCall.AddMenuItem entry => some entry.id
  | MenuCall.AddSubMenu _ entry => some entry.id
  | MenuCall.AppendSeparator => none

/-- The leading group of the File menu: New, Open, Open Recent and a separator. -/
def leadingGroup (env : MenuEnv) : List MenuCall :=
  [ MenuCall.AddMenuItem
      ⟨MenuId.ID_NEW_PROJECT, env.AddHotkeyName (env.translate "&New...") Hotkey.HK_NEW,
        env.translate "Start new schematic root sheet", "new_document_xpm"⟩,
    MenuCall.AddMenuItem
      ⟨MenuId.ID_LOAD_PROJECT, env.AddHotkeyName (env.translate "&Open...") Hotkey.HK_OPEN,
        env.translate "Open existing schematic", "open_document_xpm"⟩,
    MenuCall.AddSubMenu env.recentFiles
      ⟨MenuId.minusOne, env.translate "Open &Recent",
        env.translate "Open recently opened schematic", "recent_xpm"⟩,
    MenuCall.AppendSeparator ]

end Eeschema

/-! ## Concrete inputs -/

namespace GenDrill

/-- An environment whose directory helper and report writers succeed exactly when `ok` is
`true`, and whose save dialog is always accepted. -/
def demoEnv (ok : Bool) : Env :=
  { GetPrecisionString := fun p => if p = precisionListForInches then "2:4" else "3:3"
    DirName := fun dir => ⟨dir, "", ""⟩
    EnsureFileDirectoryExists := fun target _ => (ok, target)
    GetPath := fun f => f.path
    GetFullPath := fun f => f.path
    fileNameOf := fun full =>
      if full = "demo.kicad_pcb" then ⟨"", "demo", "kicad_pcb"⟩ else ⟨"", full, ""⟩
    ReportFileExtension := "rpt"
    AbsolutePath := fun dir => dir
    GetDocumentsDir := "Documents"
    ShowModal := fun dir file => some (dir ++ "/" ++ file)
    EXCELLON_GenDrillReportFile := fun _ _ _ => ok
    GERBER_GenDrillReportFile := fun _ _ => ok }

/-- A plated round pad with a 0.8 mm drill (internal units are nanometres). -/
def demoPadPlated : D_PAD :=
  ⟨PAD_DRILL_SHAPE_T.PAD_DRILL_SHAPE_CIRCLE, ⟨800000, 800000⟩, PAD_ATTR_T.other 0⟩

/-- A non-plated oblong pad, 1 mm by 2 mm. -/
def demoPadSlot : D_PAD :=
  ⟨PAD_DRILL_SHAPE_T.other 1, ⟨1000000, 2000000⟩, PAD_ATTR_T.PAD_ATTRIB_HOLE_NOT_PLATED⟩

/-- A surface-mount pad: round drill shape, drill size zero. -/
def demoPadSmd : D_PAD :=
  ⟨PAD_DRILL_SHAPE_T.PAD_DRILL_SHAPE_CIRCLE, ⟨0, 0⟩, PAD_ATTR_T.other 1⟩

/-- A round pad whose stored drill size is negative. -/
def demoPadNegative : D_PAD :=
  ⟨PAD_DRILL_SHAPE_T.PAD_DRILL_SHAPE_CIRCLE, ⟨-1, -1⟩, PAD_ATTR_T.other 0⟩

/-- A small board: two modules, three pads, a segment and three vias. -/
def demoBoard : BOARD :=
  { m_Modules := [⟨[demoPadPlated, demoPadSmd]⟩, ⟨[demoPadSlot]⟩]
    m_Track :=
      [ TRACK.segment, TRACK.via VIATYPE_T.VIA_THROUGH, TRACK.via VIATYPE_T.VIA_MICROVIA,
        TRACK.via VIATYPE_T.VIA_THROUGH ]
    fileName := "demo.kicad_pcb"
    plotOptions := ⟨"", false, 6⟩ }

/-- A board whose only pad has a negative drill size. -/
def demoBoardNegative : BOARD :=
  { demoBoard with m_Modules := [⟨[demoPadNegative]⟩], m_Track := [] }

/-- A dialog on `demoBoard` with the static members at their initial values of the source
file and every widget in its first position. -/
def demoDialog : DIALOG_GENDRILL :=
  { m_UnitDrillIsInch := 1
    m_ZerosFormat := EXCELLON_WRITER.DECIMAL_FORMAT
    m_MinimalHeader := false
    m_Mirror := false
    m_Merge_PTH_NPTH := false
    m_mapFileType := 1
    m_drillFileType := 0
    m_UseRouteModeForOvalHoles := true
    m_drillOriginIsAuxAxis := false
    m_FileDrillOffset := ⟨0, 0⟩
    m_Precision := precisionListForInches
    counts := HoleCounts.zero
    m_plotOpts := ⟨"", false, 6⟩
    m_board := demoBoard
    m_pcbEditFrame := ⟨⟨1000, 2000⟩⟩
    m_config := ⟨none, none, none, none, none, none, none, none⟩
    m_rbExcellon := ⟨true⟩
    m_rbGerberX2 := ⟨false⟩
    m_Choice_Unit := ⟨0, true⟩
    m_Choice_Zeros_Format := ⟨0, true⟩
    m_Check_Minimal := ⟨false, true⟩
    m_Choice_Drill_Offset := ⟨0, true⟩
    m_Check_Mirror := ⟨false, true⟩
    m_Check_Merge_PTH_NPTH := ⟨false, true⟩
    m_Choice_Drill_Map := ⟨1, true⟩
    m_radioBoxOvalHoleMode := ⟨0, true⟩
    m_staticTextPrecision := ⟨"", true⟩
    m_PlatedPadsCountInfoMsg := ⟨"", true⟩
    m_NotPlatedPadsCountInfoMsg := ⟨"", true⟩
    m_ThroughViasInfoMsg := ⟨"", true⟩
    m_MicroViasInfoMsg := ⟨"", true⟩
    m_BuriedViasInfoMsg := ⟨"", true⟩
    m_outputDirectoryName := ⟨""⟩ }

end GenDrill

/-! # Properties -/

namespace GenDrill

open DIALOG_GENDRILL

/-! ## Folding a loop body over a list -/

/-- A quantity the loop body never changes is unchanged by the whole loop. -/
theorem foldl_preserved {σ α β : Type} (f : σ → α → σ) (g : σ → β)
    (hstep : ∀ c x, g (f c x) = g c) (l : List α) (c : σ) :
    g (l.foldl f c) = g c := by
  induction l generalizing c with
  | nil => rfl
  | cons a l ih => rw [List.foldl_cons, ih, hstep]

/-- A counter the loop body bumps by one exactly on the elements satisfying `p` ends up
increased by the number of such elements. -/
theorem foldl_counts {σ α : Type} (f : σ → α → σ) (g : σ → Nat) (p : α → Bool)
    (hstep : ∀ c x, g (f c x) = g c + if p x = true then 1 else 0) (l : List α) (c : σ) :
    g (l.foldl f c) = g c + l.countP p := by
  induction l generalizing c with
  | nil => simp
  | cons a l ih =>
    rw [List.foldl_cons, ih, hstep, List.countP_cons]
    omega

/-- The nested module/pad loops visit the pads of `allPads` in order. -/
theorem foldl_countModule (ms : List MODULE) (c : HoleCounts) :
    ms.foldl countModule c = ((ms.map MODULE.PadsList).flatten).foldl countPad c := by
  induction ms generalizing c with
  | nil => rfl
  | cons m ms ih =>
    simp only [List.foldl_cons, List.map_cons, List.flatten_cons, List.foldl_append]
    rw [ih]
    rfl

/-- The loop body of the pad loop, read through the specification's inclusion condition. -/
theorem countPad_eq (c : HoleCounts) (pad : D_PAD) :
    countPad c pad = if padHasHole pad = true then countPlating c pad else c := by
  unfold countPad padHasHole
  by_cases hs : pad.GetDrillShape = PAD_DRILL_SHAPE_T.PAD_DRILL_SHAPE_CIRCLE <;>
    by_cases hx : pad.GetDrillSize.x = 0 <;>
    by_cases hy : pad.GetDrillSize.y = 0 <;>
    simp [hs, hx, hy]

/-- The counting part of `InitDisplayParams` as two flat loops. -/
theorem countHoles_eq (board : BOARD) :
    countHoles board
      = board.m_Track.foldl countTrack ((allPads board).foldl countPad HoleCounts.zero) := by
  unfold countHoles allPads
  rw [foldl_countModule]

/-- The handler `onFileFormatSelection` leaves the counters alone. -/
theorem onFileFormatSelection_counts (env : Env) (d : DIALOG_GENDRILL) :
    (onFileFormatSelection env d).counts = d.counts := by
  unfold onFileFormatSelection
  cases d.m_rbExcellon.value <;> rfl

/-- The counters stored by `InitDisplayParams` are those of the counting loops run on the
board the dialog points to. -/
theorem InitDisplayParams_counts (env : Env) (d : DIALOG_GENDRILL) :
    (InitDisplayParams env d).counts = countHoles d.m_board := by
  unfold InitDisplayParams
  rw [onFileFormatSelection_counts]
  rfl

/-! ## The pad loop and the track loop -/

/-- The pad loop adds to the two pad counters, together, the number of pads with a hole. -/
theorem padLoop_sum (ps : List D_PAD) (c : HoleCounts) :
    (ps.foldl countPad c).m_platedPadsHoleCount + (ps.foldl countPad c).m_notplatedPadsHoleCount
      = c.m_platedPadsHoleCount + c.m_notplatedPadsHoleCount + ps.countP padHasHole := by
  refine foldl_counts countPad
    (fun c => c.m_platedPadsHoleCount + c.m_notplatedPadsHoleCount) padHasHole ?_ ps c
  intro c x
  rw [countPad_eq]
  by_cases hh : padHasHole x = true
  · by_cases ha : x.GetAttribute = PAD_ATTR_T.PAD_ATTRIB_HOLE_NOT_PLATED
    · simp [hh, countPlating, ha]; omega
    · simp [hh, countPlating, ha]; omega
  · simp [hh]

/-- The pad loop adds to the non-plated counter the number of non-plated pads with a hole. -/
theorem padLoop_notplated (ps : List D_PAD) (c : HoleCounts) :
    (ps.foldl countPad c).m_notplatedPadsHoleCount
      = c.m_notplatedPadsHoleCount + ps.countP (fun pad => padHasHole pad && padNotPlated pad) := by
  refine foldl_counts countPad (fun c => c.m_notplatedPadsHoleCount)
    (fun pad => padHasHole pad && padNotPlated pad) ?_ ps c
  intro c x
  rw [countPad_eq]
  by_cases hh : padHasHole x = true
  · by_cases ha : x.GetAttribute = PAD_ATTR_T.PAD_ATTRIB_HOLE_NOT_PLATED
    · simp [hh, countPlating, ha, padNotPlated]
    · simp [hh, countPlating, ha, padNotPlated]
  · simp [hh]

/-- The pad loop never touches the three via counters. -/
theorem padLoop_vias (ps : List D_PAD) (c : HoleCounts) :
    (ps.foldl countPad c).m_throughViasCount = c.m_throughViasCount
    ∧ (ps.foldl countPad c).m_microViasCount = c.m_microViasCount
    ∧ (ps.foldl countPad c).m_blindOrBuriedViasCount = c.m_blindOrBuriedViasCount := by
  have hstep : ∀ (c : HoleCounts) (x : D_PAD),
      (countPad c x).m_throughViasCount = c.m_throughViasCount
      ∧ (countPad c x).m_microViasCount = c.m_microViasCount
      ∧ (countPad c x).m_blindOrBuriedViasCount = c.m_blindOrBuriedViasCount := by
    intro c x
    rw [countPad_eq]
    unfold countPlating
    split <;> [split; skip] <;> simp
  exact ⟨foldl_preserved countPad (fun c => c.m_throughViasCount) (fun c x => (hstep c x).1) ps c,
    foldl_preserved countPad (fun c => c.m_microViasCount) (fun c x => (hstep c x).2.1) ps c,
    foldl_preserved countPad (fun c => c.m_blindOrBuriedViasCount)
      (fun c x => (hstep c x).2.2) ps c⟩

/-- The loop body of the track loop never touches the two pad counters. -/
theorem countTrack_pads (c : HoleCounts) (track : TRACK) :
    (countTrack c track).m_platedPadsHoleCount = c.m_platedPadsHoleCount
    ∧ (countTrack c track).m_notplatedPadsHoleCount = c.m_notplatedPadsHoleCount := by
  unfold countTrack
  split <;> simp

/-- The track loop never touches the two pad counters. -/
theorem trackLoop_pads (ts : List TRACK) (c : HoleCounts) :
    (ts.foldl countTrack c).m_platedPadsHoleCount = c.m_platedPadsHoleCount
    ∧ (ts.foldl countTrack c).m_notplatedPadsHoleCount = c.m_notplatedPadsHoleCount :=
  ⟨foldl_preserved countTrack (fun c => c.m_platedPadsHoleCount)
      (fun c x => (countTrack_pads c x).1) ts c,
    foldl_preserved countTrack (fun c => c.m_notplatedPadsHoleCount)
      (fun c x => (countTrack_pads c x).2) ts c⟩

/-- The track loop adds to each via counter the number of vias of its type. -/
theorem trackLoop_vias (ts : List TRACK) (c : HoleCounts) :
    (ts.foldl countTrack c).m_throughViasCount
        = c.m_throughViasCount + ts.countP (isViaOfType VIATYPE_T.VIA_THROUGH)
    ∧ (ts.foldl countTrack c).m_microViasCount
        = c.m_microViasCount + ts.countP (isViaOfType VIATYPE_T.VIA_MICROVIA)
    ∧ (ts.foldl countTrack c).m_blindOrBuriedViasCount
        = c.m_blindOrBuriedViasCount + ts.countP (isViaOfType VIATYPE_T.VIA_BLIND_BURIED) := by
  refine ⟨foldl_counts countTrack (fun c => c.m_throughViasCount) _ ?_ ts c,
    foldl_counts countTrack (fun c => c.m_microViasCount) _ ?_ ts c,
    foldl_counts countTrack (fun c => c.m_blindOrBuriedViasCount) _ ?_ ts c⟩ <;>
  · intro c x
    unfold countTrack isViaOfType
    split <;> simp

/-- Track elements that are not vias can be dropped without changing the track loop. -/
theorem trackLoop_filter (ts : List TRACK) (c : HoleCounts) :
    (ts.filter isVia).foldl countTrack c = ts.foldl countTrack c := by
  induction ts generalizing c with
  | nil => rfl
  | cons t ts ih =>
    cases t with
    | segment => simpa [List.filter, isVia, countTrack] using ih c
    | via v => simpa [List.filter, isVia] using ih (countTrack c (TRACK.via v))

/-! ## Hole counting: claims C1 to C4 -/

/-- Claim C1.  For every board, after `InitDisplayParams` the sum of the plated and the
non-plated pad counters is the number of pads, over all modules, that are circular with a
non-zero drill size x or not circular with non-zero drill sizes x and y.  In particular a
circular pad with drill diameter 0, wherever it sits in the board, adds nothing to any of
the five counters. -/
theorem C1_pad_hole_total (env : Env) (d : DIALOG_GENDRILL) :
    (InitDisplayParams env d).counts.m_platedPadsHoleCount
        + (InitDisplayParams env d).counts.m_notplatedPadsHoleCount
      = (allPads d.m_board).countP padHasHole
    ∧ ∀ (ms1 ms2 : List MODULE) (ps1 ps2 : List D_PAD) (y : Int) (a : PAD_ATTR_T),
        (InitDisplayParams env
            { d with m_board := { d.m_board with
                m_Modules :=
                  ms1 ++ ⟨ps1 ++ ⟨PAD_DRILL_SHAPE_T.PAD_DRILL_SHAPE_CIRCLE, ⟨0, y⟩, a⟩ :: ps2⟩
                    :: ms2 } }).counts
          = (InitDisplayParams env
              { d with m_board := { d.m_board with
                  m_Modules := ms1 ++ ⟨ps1 ++ ps2⟩ :: ms2 } }).counts := by
  constructor
  · rw [InitDisplayParams_counts, countHoles_eq, (trackLoop_pads _ _).1, (trackLoop_pads _ _).2,
      padLoop_sum]
    simp [HoleCounts.zero]
  · intro ms1 ms2 ps1 ps2 y a
    rw [InitDisplayParams_counts, InitDisplayParams_counts, countHoles_eq, countHoles_eq]
    have hz : ∀ c : HoleCounts,
        countPad c ⟨PAD_DRILL_SHAPE_T.PAD_DRILL_SHAPE_CIRCLE, ⟨0, y⟩, a⟩ = c := by
      intro c
      simp [countPad]
    simp [allPads, List.foldl_append, hz]

/-- Claim C2.  For a pad that `InitDisplayParams` includes as a hole, the loop body bumps
exactly one pad counter by exactly 1 and leaves the other four as they are: the non-plated
counter when the attribute is `PAD_ATTRIB_HOLE_NOT_PLATED`, the plated counter for every
other attribute; so after `InitDisplayParams` the non-plated counter is the number of
included pads whose attribute is `PAD_ATTRIB_HOLE_NOT_PLATED`. -/
theorem C2_plating_split (env : Env) (d : DIALOG_GENDRILL) (c : HoleCounts) (pad : D_PAD)
    (hincluded : padHasHole pad = true) :
    (pad.GetAttribute = PAD_ATTR_T.PAD_ATTRIB_HOLE_NOT_PLATED →
        countPad c pad
          = { c with m_notplatedPadsHoleCount := c.m_notplatedPadsHoleCount + 1 })
    ∧ (pad.GetAttribute ≠ PAD_ATTR_T.PAD_ATTRIB_HOLE_NOT_PLATED →
        countPad c pad = { c with m_platedPadsHoleCount := c.m_platedPadsHoleCount + 1 })
    ∧ (InitDisplayParams env d).counts.m_notplatedPadsHoleCount
        = (allPads d.m_board).countP (fun p => padHasHole p && padNotPlated p) := by
  refine ⟨?_, ?_, ?_⟩
  · intro ha
    rw [countPad_eq]
    simp [hincluded, countPlating, ha]
  · intro ha
    rw [countPad_eq]
    simp [hincluded, countPlating, ha]
  · rw [InitDisplayParams_counts, countHoles_eq, (trackLoop_pads _ _).2, padLoop_notplated]
    simp [HoleCounts.zero]

/-- Claim C2 at a concrete input: the non-plated oblong pad of `demoBoard`. -/
theorem C2_plating_split_witness :
    padHasHole demoPadSlot = true
    ∧ countPad HoleCounts.zero demoPadSlot = ⟨0, 1, 0, 0, 0⟩
    ∧ (InitDisplayParams (demoEnv true) demoDialog).counts.m_notplatedPadsHoleCount = 1 := by
  have h := C2_plating_split (demoEnv true) demoDialog HoleCounts.zero demoPadSlot (by decide)
  refine ⟨by decide, ?_, ?_⟩
  · rw [h.1 (by decide)]
    rfl
  · rw [h.2.2]
    decide

/-- Claim C3.  For every track list, after `InitDisplayParams` the through, micro and
blind-or-buried counters are the numbers of track elements that are vias of type
`VIA_THROUGH`, `VIA_MICROVIA` and `VIA_BLIND_BURIED`; a track element that is not a via
changes no counter (the loop body returns the counters as they are, and dropping every
such element from the board changes none of the five counts); and no via changes the
non-plated pad counter, which does not depend on the track list at all. -/
theorem C3_via_counts (env : Env) (d : DIALOG_GENDRILL) :
    (InitDisplayParams env d).counts.m_throughViasCount
        = d.m_board.m_Track.countP (isViaOfType VIATYPE_T.VIA_THROUGH)
    ∧ (InitDisplayParams env d).counts.m_microViasCount
        = d.m_board.m_Track.countP (isViaOfType VIATYPE_T.VIA_MICROVIA)
    ∧ (InitDisplayParams env d).counts.m_blindOrBuriedViasCount
        = d.m_board.m_Track.countP (isViaOfType VIATYPE_T.VIA_BLIND_BURIED)
    ∧ (∀ c : HoleCounts, countTrack c TRACK.segment = c)
    ∧ (InitDisplayParams env
          { d with m_board := { d.m_board with
              m_Track := d.m_board.m_Track.filter isVia } }).counts
        = (InitDisplayParams env d).counts
    ∧ (∀ (c : HoleCounts) (t : VIATYPE_T),
        (countTrack c (TRACK.via t)).m_notplatedPadsHoleCount = c.m_notplatedPadsHoleCount)
    ∧ (∀ tracks : List TRACK,
        (InitDisplayParams env
            { d with m_board := { d.m_board with m_Track := tracks } }).counts.m_notplatedPadsHoleCount
          = (InitDisplayParams env d).counts.m_notplatedPadsHoleCount) := by
  refine ⟨?_, ?_, ?_, fun c => rfl, ?_, fun c t => (countTrack_pads c _).2, ?_⟩
  · rw [InitDisplayParams_counts, countHoles_eq, (trackLoop_vias _ _).1, (padLoop_vias _ _).1]
    simp [HoleCounts.zero]
  · rw [InitDisplayParams_counts, countHoles_eq, (trackLoop_vias _ _).2.1,
      (padLoop_vias _ _).2.1]
    simp [HoleCounts.zero]
  · rw [InitDisplayParams_counts, countHoles_eq, (trackLoop_vias _ _).2.2,
      (padLoop_vias _ _).2.2]
    simp [HoleCounts.zero]
  · rw [InitDisplayParams_counts, InitDisplayParams_counts, countHoles_eq, countHoles_eq]
    exact trackLoop_filter _ _
  · intro tracks
    rw [InitDisplayParams_counts, InitDisplayParams_counts, countHoles_eq, countHoles_eq,
      (trackLoop_pads _ _).2, (trackLoop_pads _ _).2]
    rfl

/-- Claim C4, as stated, fails: on a board whose only pad is circular with drill size
x = -1, `InitDisplayParams` counts that pad as a plated hole although its drill size is
not strictly positive. -/
theorem C4_counterexample :
    allPads demoBoardNegative = [demoPadNegative]
    ∧ demoPadNegative.GetDrillShape = PAD_DRILL_SHAPE_T.PAD_DRILL_SHAPE_CIRCLE
    ∧ ¬ (0 < demoPadNegative.GetDrillSize.x)
    ∧ (InitDisplayParams (demoEnv true)
        { demoDialog with m_board := demoBoardNegative }).counts.m_platedPadsHoleCount = 1 := by
  refine ⟨by decide, by decide, by decide, ?_⟩
  rw [InitDisplayParams_counts]
  decide

/-- Claim C4, amended.  Every pad that the loop body of `InitDisplayParams` counts (the
counters change) has non-zero drill dimensions: drill size x is non-zero when its drill
shape is circular, and both x and y are non-zero when it is a slot.  For a counted pad
whose drill sizes are not negative they are strictly positive. -/
theorem C4_counted_nonzero (c : HoleCounts) (pad : D_PAD) (hcounted : countPad c pad ≠ c) :
    (pad.GetDrillShape = PAD_DRILL_SHAPE_T.PAD_DRILL_SHAPE_CIRCLE → pad.GetDrillSize.x ≠ 0)
    ∧ (pad.GetDrillShape ≠ PAD_DRILL_SHAPE_T.PAD_DRILL_SHAPE_CIRCLE →
        pad.GetDrillSize.x ≠ 0 ∧ pad.GetDrillSize.y ≠ 0)
    ∧ (pad.GetDrillShape = PAD_DRILL_SHAPE_T.PAD_DRILL_SHAPE_CIRCLE →
        0 ≤ pad.GetDrillSize.x → 0 < pad.GetDrillSize.x)
    ∧ (pad.GetDrillShape ≠ PAD_DRILL_SHAPE_T.PAD_DRILL_SHAPE_CIRCLE →
        0 ≤ pad.GetDrillSize.x → 0 ≤ pad.GetDrillSize.y →
        0 < pad.GetDrillSize.x ∧ 0 < pad.GetDrillSize.y) := by
  have hx : ∀ _ : pad.GetDrillShape = PAD_DRILL_SHAPE_T.PAD_DRILL_SHAPE_CIRCLE,
      pad.GetDrillSize.x ≠ 0 := by
    intro hs h0
    apply hcounted
    simp [countPad, hs, h0]
  have hxy : ∀ _ : pad.GetDrillShape ≠ PAD_DRILL_SHAPE_T.PAD_DRILL_SHAPE_CIRCLE,
      pad.GetDrillSize.x ≠ 0 ∧ pad.GetDrillSize.y ≠ 0 := by
    intro hs
    by_contra hne
    apply hcounted
    simp only [countPad, hs, if_false, hne]
  refine ⟨hx, hxy, ?_, ?_⟩
  · intro hs h0
    have := hx hs
    omega
  · intro hs h0 h1
    have := hxy hs
    omega

/-- Claim C4 amended, at a concrete input: the plated round pad of `demoBoard`. -/
theorem C4_counted_nonzero_witness :
    countPad HoleCounts.zero demoPadPlated ≠ HoleCounts.zero
    ∧ 0 < demoPadPlated.GetDrillSize.x :=
  ⟨by decide,
    (C4_counted_nonzero HoleCounts.zero demoPadPlated (by decide)).2.2.1 (by decide) (by decide)⟩

/-! ## What `GenDrillAndMapFiles` does, case by case -/

/-- The clamped index always lies inside the table. -/
theorem mapChoice_lt (s : Int) : mapChoice s < filefmt.length := by
  unfold mapChoice
  simp only []
  split
  · decide
  · omega

/-- The read `filefmt[choice]` always finds an entry. -/
theorem filefmt_mapChoice (s : Int) : ∃ fmt, filefmt[mapChoice s]? = some fmt :=
  ⟨filefmt.get ⟨mapChoice s, mapChoice_lt s⟩, List.getElem?_eq_getElem (mapChoice_lt s)⟩

/-- The directory cannot be made: the error is shown and nothing else happens. -/
theorem GenDrillAndMapFiles_fail (env : Env) (d : DIALOG_GENDRILL) (aGenDrill aGenMap : Bool)
    (hfail : (ensureOutputDirectory env d).1 = false) :
    GenDrillAndMapFiles env d aGenDrill aGenMap
      = some (UpdateConfig d,
          [ Event.ClearMsgPanel,
            Event.EnsureFileDirectoryExists
              (env.DirName (UpdateConfig d).m_plotOpts.outputDirectory)
              (UpdateConfig d).m_board.fileName,
            Event.DisplayError (env.GetPath (ensureOutputDirectory env d).2) ]) := by
  unfold ensureOutputDirectory at hfail
  unfold GenDrillAndMapFiles ensureOutputDirectory
  simp only [hfail, if_true, List.cons_append, List.nil_append]

/-- The directory is there and the Excellon format is selected. -/
theorem GenDrillAndMapFiles_excellon (env : Env) (d : DIALOG_GENDRILL)
    (aGenDrill aGenMap : Bool) (fmt : PlotFormat)
    (hok : (ensureOutputDirectory env d).1 = true) (ht : d.m_drillFileType = 0)
    (hf : filefmt[mapChoice d.m_Choice_Drill_Map.selection]? = some fmt) :
    GenDrillAndMapFiles env d aGenDrill aGenMap
      = some (UpdateConfig d,
          [ Event.ClearMsgPanel,
            Event.EnsureFileDirectoryExists
              (env.DirName (UpdateConfig d).m_plotOpts.outputDirectory)
              (UpdateConfig d).m_board.fileName,
            Event.EXCELLON_SetFormat (decide ((UpdateConfig d).m_UnitDrillIsInch = 0))
              (UpdateConfig d).m_ZerosFormat (UpdateConfig d).m_Precision.m_lhs
              (UpdateConfig d).m_Precision.m_rhs,
            Event.EXCELLON_SetOptions (UpdateConfig d).m_Mirror (UpdateConfig d).m_MinimalHeader
              (UpdateConfig d).m_FileDrillOffset (UpdateConfig d).m_Merge_PTH_NPTH,
            Event.EXCELLON_SetRouteModeForOvalHoles (UpdateConfig d).m_UseRouteModeForOvalHoles,
            Event.EXCELLON_SetMapFileFormat fmt,
            Event.EXCELLON_CreateDrillandMapFilesSet
              (env.GetFullPath (ensureOutputDirectory env d).2) aGenDrill aGenMap ]) := by
  have h1 : (UpdateConfig d).m_drillFileType = d.m_drillFileType := rfl
  have h2 : (UpdateConfig d).m_Choice_Drill_Map = d.m_Choice_Drill_Map := rfl
  unfold ensureOutputDirectory at hok
  unfold GenDrillAndMapFiles ensureOutputDirectory
  simp only [hok, h1, h2, ht, hf, if_true, List.cons_append, List.nil_append]
  rfl

/-- The directory is there and the Gerber format is selected. -/
theorem GenDrillAndMapFiles_gerber (env : Env) (d : DIALOG_GENDRILL)
    (aGenDrill aGenMap : Bool) (fmt : PlotFormat)
    (hok : (ensureOutputDirectory env d).1 = true) (ht : d.m_drillFileType ≠ 0)
    (hf : filefmt[mapChoice d.m_Choice_Drill_Map.selection]? = some fmt) :
    GenDrillAndMapFiles env d aGenDrill aGenMap
      = some (UpdateConfig d,
          [ Event.ClearMsgPanel,
            Event.EnsureFileDirectoryExists
              (env.DirName (UpdateConfig d).m_plotOpts.outputDirectory)
              (UpdateConfig d).m_board.fileName,
            Event.GERBER_SetFormat (UpdateConfig d).m_plotOpts.gerberPrecision,
            Event.GERBER_SetOptions (UpdateConfig d).m_FileDrillOffset,
            Event.GERBER_SetMapFileFormat fmt,
            Event.GERBER_CreateDrillandMapFilesSet
              (env.GetFullPath (ensureOutputDirectory env d).2) aGenDrill aGenMap ]) := by
  have h1 : (UpdateConfig d).m_drillFileType = d.m_drillFileType := rfl
  have h2 : (UpdateConfig d).m_Choice_Drill_Map = d.m_Choice_Drill_Map := rfl
  unfold ensureOutputDirectory at hok
  unfold GenDrillAndMapFiles ensureOutputDirectory
  simp only [hok, h1, h2, ht, hf, if_false, List.cons_append, List.nil_append]
  rfl

/-- The values `UpdateDrillParams` resolves, read off the widgets. -/
theorem UpdateConfig_unit (d : DIALOG_GENDRILL) :
    (UpdateConfig d).m_UnitDrillIsInch = (if d.m_Choice_Unit.selection = 0 then 0 else 1)
    ∧ (UpdateConfig d).m_Precision
        = (if d.m_Choice_Unit.selection = 0 then precisionListForMetric
           else precisionListForInches) := by
  refine ⟨rfl, ?_⟩
  by_cases h : d.m_Choice_Unit.selection = 0
  · simp [UpdateConfig, UpdateDrillParams, h]
  · simp [UpdateConfig, UpdateDrillParams, h]

/-- The table entry reached from a 32-bit selection is the one the specification names. -/
theorem filefmt_expected (s : Int) (hlo : -2147483648 ≤ s) (hhi : s ≤ 2147483647) :
    filefmt[mapChoice s]? = some (expectedMapFormat s) := by
  by_cases hin : 0 ≤ s ∧ s ≤ 5
  · obtain ⟨h0, h5⟩ := hin
    interval_cases s <;> rfl
  · have hc : mapChoice s = 1 := by
      unfold mapChoice
      simp only [filefmt, List.length_cons, List.length_nil]
      split
      · rfl
      · omega
    have he : expectedMapFormat s = PlotFormat.PLOT_FORMAT_POST := by
      unfold expectedMapFormat
      have h0 : s ≠ 0 := by omega
      have h2 : s ≠ 2 := by omega
      have h3 : s ≠ 3 := by omega
      have h4 : s ≠ 4 := by omega
      have h5 : s ≠ 5 := by omega
      simp [h0, h2, h3, h4, h5]
    rw [hc, he]
    rfl

/-! ## Generation of the files: claims C5 to C10 -/

/-- Claim C5.  In `GenDrillAndMapFiles`, for every 32-bit signed selection `s` of the
map-format choice, the index into the 6-entry table is below 6, the entry read is
`filefmt[s]` when `0 ≤ s ≤ 5` and `PLOT_FORMAT_POST` for every other `s` (negative ones
included, after the cast to unsigned), the call always completes (no read outside the
table), every `SetMapFileFormat` it makes carries that format, and when the output
directory is available the selected writer gets that format and is asked to create the
files. -/
theorem C5_map_format_clamp (env : Env) (d : DIALOG_GENDRILL) (aGenDrill aGenMap : Bool)
    (hlo : -2147483648 ≤ d.m_Choice_Drill_Map.selection)
    (hhi : d.m_Choice_Drill_Map.selection ≤ 2147483647) :
    mapChoice d.m_Choice_Drill_Map.selection < 6
    ∧ filefmt[mapChoice d.m_Choice_Drill_Map.selection]?
        = some (expectedMapFormat d.m_Choice_Drill_Map.selection)
    ∧ ∃ d1 evs, GenDrillAndMapFiles env d aGenDrill aGenMap = some (d1, evs)
        ∧ (∀ f, (Event.EXCELLON_SetMapFileFormat f ∈ evs ∨ Event.GERBER_SetMapFileFormat f ∈ evs)
            → f = expectedMapFormat d.m_Choice_Drill_Map.selection)
        ∧ ((ensureOutputDirectory env d).1 = true →
            (d.m_drillFileType = 0 →
              Event.EXCELLON_SetMapFileFormat (expectedMapFormat d.m_Choice_Drill_Map.selection)
                  ∈ evs
              ∧ Event.EXCELLON_CreateDrillandMapFilesSet
                  (env.GetFullPath (ensureOutputDirectory env d).2) aGenDrill aGenMap ∈ evs)
            ∧ (d.m_drillFileType ≠ 0 →
              Event.GERBER_SetMapFileFormat (expectedMapFormat d.m_Choice_Drill_Map.selection)
                  ∈ evs
              ∧ Event.GERBER_CreateDrillandMapFilesSet
                  (env.GetFullPath (ensureOutputDirectory env d).2) aGenDrill aGenMap ∈ evs)) := by
  have hf := filefmt_expected _ hlo hhi
  refine ⟨mapChoice_lt _, hf, ?_⟩
  by_cases hok : (ensureOutputDirectory env d).1 = true
  · by_cases ht : d.m_drillFileType = 0
    · refine ⟨_, _, GenDrillAndMapFiles_excellon env d aGenDrill aGenMap _ hok ht hf, ?_, ?_⟩
      · intro f hmem
        simpa using hmem
      · intro _
        exact ⟨fun _ => by simp, fun hne => absurd ht hne⟩
    · refine ⟨_, _, GenDrillAndMapFiles_gerber env d aGenDrill aGenMap _ hok ht hf, ?_, ?_⟩
      · intro f hmem
        simpa using hmem
      · intro _
        exact ⟨fun h0 => absurd h0 ht, fun _ => by simp⟩
  · have hfail : (ensureOutputDirectory env d).1 = false := by simpa using hok
    refine ⟨_, _, GenDrillAndMapFiles_fail env d aGenDrill aGenMap hfail, ?_, ?_⟩
    · intro f hmem
      simp at hmem
    · intro h
      exact absurd h hok

/-- Claim C5 at a concrete input: the selection `-1` (nothing selected) with the Excellon
format and an available directory reaches the writer as `PLOT_FORMAT_POST`. -/
theorem C5_map_format_clamp_witness :
    mapChoice (-1) < 6
    ∧ filefmt[mapChoice (-1)]? = some PlotFormat.PLOT_FORMAT_POST
    ∧ ∃ d1 evs,
        GenDrillAndMapFiles (demoEnv true)
            { demoDialog with m_Choice_Drill_Map := ⟨-1, true⟩ } true false = some (d1, evs)
        ∧ Event.EXCELLON_SetMapFileFormat PlotFormat.PLOT_FORMAT_POST ∈ evs
        ∧ Event.EXCELLON_CreateDrillandMapFilesSet "" true false ∈ evs := by
  obtain ⟨h1, h2, d1, evs, hrun, _, h4⟩ :=
    C5_map_format_clamp (demoEnv true) { demoDialog with m_Choice_Drill_Map := ⟨-1, true⟩ }
      true false (by decide) (by decide)
  exact ⟨h1, h2, d1, evs, hrun, ((h4 rfl).1 rfl).1, ((h4 rfl).1 rfl).2⟩

/-- Claim C6.  For every dialog state, a `SetFormat` call that `GenDrillAndMapFiles` makes
on the Excellon writer carries the precision pair (2,4) exactly when its metric argument
is `false` (inches) and (3,3) exactly when it is `true` (millimetres), so no other pair
is ever passed; the metric argument is `true` exactly when the unit choice is at 0. -/
theorem C6_excellon_precision (env : Env) (d : DIALOG_GENDRILL) (aGenDrill aGenMap : Bool)
    (d1 : DIALOG_GENDRILL) (evs : List Event)
    (hrun : GenDrillAndMapFiles env d aGenDrill aGenMap = some (d1, evs))
    (aMetric : Bool) (aZerosFmt aLeftDigits aRightDigits : Int)
    (hcall : Event.EXCELLON_SetFormat aMetric aZerosFmt aLeftDigits aRightDigits ∈ evs) :
    ((aLeftDigits = 2 ∧ aRightDigits = 4) ↔ aMetric = false)
    ∧ ((aLeftDigits = 3 ∧ aRightDigits = 3) ↔ aMetric = true)
    ∧ (aMetric = true ↔ d.m_Choice_Unit.selection = 0) := by
  obtain ⟨fmt, hf⟩ := filefmt_mapChoice d.m_Choice_Drill_Map.selection
  by_cases hok : (ensureOutputDirectory env d).1 = true
  · by_cases ht : d.m_drillFileType = 0
    · rw [GenDrillAndMapFiles_excellon env d aGenDrill aGenMap fmt hok ht hf] at hrun
      simp only [Option.some.injEq, Prod.mk.injEq] at hrun
      obtain ⟨_, rfl⟩ := hrun
      simp only [List.mem_cons, Event.EXCELLON_SetFormat.injEq, List.mem_nil_iff, reduceCtorEq,
        false_or, or_false] at hcall
      obtain ⟨hm, _, hl, hr⟩ := hcall
      rw [(UpdateConfig_unit d).1] at hm
      rw [(UpdateConfig_unit d).2] at hl hr
      by_cases hsel : d.m_Choice_Unit.selection = 0
      · simp [hsel, precisionListForMetric] at hm hl hr
        subst hm hl hr
        simp [hsel]
      · simp [hsel, precisionListForInches] at hm hl hr
        subst hm hl hr
        simp [hsel]
    · rw [GenDrillAndMapFiles_gerber env d aGenDrill aGenMap fmt hok ht hf] at hrun
      simp only [Option.some.injEq, Prod.mk.injEq] at hrun
      obtain ⟨_, rfl⟩ := hrun
      simp at hcall
  · have hfail : (ensureOutputDirectory env d).1 = false := by simpa using hok
    rw [GenDrillAndMapFiles_fail env d aGenDrill aGenMap hfail] at hrun
    simp only [Option.some.injEq, Prod.mk.injEq] at hrun
    obtain ⟨_, rfl⟩ := hrun
    simp at hcall

/-- Claim C6 at a concrete input: with the unit choice at 1 (inches), the Excellon format
and an available directory, the call is `SetFormat( false, 0, 2, 4 )`. -/
theorem C6_excellon_precision_witness :
    GenDrillAndMapFiles (demoEnv true) { demoDialog with m_Choice_Unit := ⟨1, true⟩ } true false
      = some (UpdateConfig { demoDialog with m_Choice_Unit := ⟨1, true⟩ },
          [ Event.ClearMsgPanel,
            Event.EnsureFileDirectoryExists ⟨"", "", ""⟩ "demo.kicad_pcb",
            Event.EXCELLON_SetFormat false 0 2 4,
            Event.EXCELLON_SetOptions false false ⟨0, 0⟩ false,
            Event.EXCELLON_SetRouteModeForOvalHoles true,
            Event.EXCELLON_SetMapFileFormat PlotFormat.PLOT_FORMAT_POST,
            Event.EXCELLON_CreateDrillandMapFilesSet "" true false ])
    ∧ (((2 : Int) = 2 ∧ (4 : Int) = 4) ↔ false = false)
    ∧ (((2 : Int) = 3 ∧ (4 : Int) = 3) ↔ false = true) := by
  have hrun :
      GenDrillAndMapFiles (demoEnv true) { demoDialog with m_Choice_Unit := ⟨1, true⟩ } true false
        = some (UpdateConfig { demoDialog with m_Choice_Unit := ⟨1, true⟩ },
            [ Event.ClearMsgPanel,
              Event.EnsureFileDirectoryExists ⟨"", "", ""⟩ "demo.kicad_pcb",
              Event.EXCELLON_SetFormat false 0 2 4,
              Event.EXCELLON_SetOptions false false ⟨0, 0⟩ false,
              Event.EXCELLON_SetRouteModeForOvalHoles true,
              Event.EXCELLON_SetMapFileFormat PlotFormat.PLOT_FORMAT_POST,
              Event.EXCELLON_CreateDrillandMapFilesSet "" true false ]) := by
    rfl
  have h := C6_excellon_precision (demoEnv true) { demoDialog with m_Choice_Unit := ⟨1, true⟩ }
    true false _ _ hrun false 0 2 4 (by simp)
  exact ⟨hrun, h.1, h.2.1⟩

/-- Claim C7, as stated, fails: with the Gerber format selected and
`GetGerberPrecision()` returning 7, `onFileFormatSelection` sets the label "4.5", while
the member of {5, 6} nearest to 7 is 6. -/
theorem C7_counterexample :
    (onFileFormatSelection (demoEnv true)
        { demoDialog with
          m_rbExcellon := ⟨false⟩
          m_plotOpts := ⟨"", false, 7⟩ }).m_staticTextPrecision.label = "4.5"
    ∧ nearestValidDecimals 7 = 6 := by
  constructor
  · rfl
  · decide

/-- Claim C7, amended.  When the Gerber format is selected, for every integer `p`
returned by `GetGerberPrecision()` the precision label set by `onFileFormatSelection` is
"4.6" when `p = 6` and "4.5" for every other `p` (integer part 4, decimal part 6 exactly
for `p = 6` and 5 otherwise), the label is enabled and the file type becomes 1; no value
is rejected.  For `p ≤ 6` the decimal part is the member of {5, 6} nearest to `p`. -/
theorem C7_gerber_precision_label (env : Env) (d : DIALOG_GENDRILL) :
    (onFileFormatSelection env { d with m_rbExcellon := ⟨false⟩ }).m_staticTextPrecision.label
        = (if d.m_plotOpts.gerberPrecision = 6 then "4.6" else "4.5")
    ∧ (onFileFormatSelection env
          { d with m_rbExcellon := ⟨false⟩ }).m_staticTextPrecision.enabled = true
    ∧ (onFileFormatSelection env { d with m_rbExcellon := ⟨false⟩ }).m_drillFileType = 1
    ∧ (d.m_plotOpts.gerberPrecision ≤ 6 →
        ((onFileFormatSelection env
              { d with m_rbExcellon := ⟨false⟩ }).m_staticTextPrecision.label = "4.6"
            ↔ nearestValidDecimals d.m_plotOpts.gerberPrecision = 6)
        ∧ ((onFileFormatSelection env
              { d with m_rbExcellon := ⟨false⟩ }).m_staticTextPrecision.label = "4.5"
            ↔ nearestValidDecimals d.m_plotOpts.gerberPrecision = 5)) := by
  have hlabel :
      (onFileFormatSelection env
          { d with m_rbExcellon := ⟨false⟩ }).m_staticTextPrecision.label
        = (if d.m_plotOpts.gerberPrecision = 6 then "4.6" else "4.5") := rfl
  refine ⟨hlabel, rfl, rfl, ?_⟩
  intro hp
  rw [hlabel]
  unfold nearestValidDecimals
  by_cases h6 : d.m_plotOpts.gerberPrecision = 6
  · have hn : ¬ ((d.m_plotOpts.gerberPrecision - 5).natAbs
        ≤ (d.m_plotOpts.gerberPrecision - 6).natAbs) := by omega
    simp [h6]
  · have hn : (d.m_plotOpts.gerberPrecision - 5).natAbs
        ≤ (d.m_plotOpts.gerberPrecision - 6).natAbs := by omega
    simp [h6, hn]

/-- Claim C7 amended, at a concrete input: `GetGerberPrecision()` returning 3 gives the
label "4.5", and 5 is the member of {5, 6} nearest to 3. -/
theorem C7_gerber_precision_label_witness :
    (onFileFormatSelection (demoEnv true)
        { demoDialog with
          m_plotOpts := ⟨"", false, 3⟩
          m_rbExcellon := ⟨false⟩ }).m_staticTextPrecision.label = "4.5"
    ∧ nearestValidDecimals 3 = 5 := by
  have h := C7_gerber_precision_label (demoEnv true) { demoDialog with m_plotOpts := ⟨"", false, 3⟩ }
  exact ⟨h.1, ((h.2.2.2 (by decide)).2).1 h.1⟩

/-- Claim C8.  After `UpdateDrillParams`, `m_FileDrillOffset` is the point (0,0) when the
drill-offset choice is at 0 and the frame's auxiliary origin for every other selection;
`m_drillOriginIsAuxAxis` and the use-aux-origin flag of the plot options (the dialog's
copy and the one stored in the board) are true exactly when the selection is not 0; and
`GenDrillAndMapFiles` passes this same `m_FileDrillOffset` in every `SetOptions` call it
makes, on the Excellon writer or on the Gerber writer, whichever it configures. -/
theorem C8_file_drill_offset (env : Env) (d : DIALOG_GENDRILL) (aGenDrill aGenMap : Bool) :
    (UpdateDrillParams d).m_FileDrillOffset
        = (if d.m_Choice_Drill_Offset.selection = 0 then (⟨0, 0⟩ : wxPoint)
           else d.m_pcbEditFrame.auxOrigin)
    ∧ ((UpdateDrillParams d).m_drillOriginIsAuxAxis = true
        ↔ d.m_Choice_Drill_Offset.selection ≠ 0)
    ∧ ((UpdateDrillParams d).m_plotOpts.useAuxOrigin = true
        ↔ d.m_Choice_Drill_Offset.selection ≠ 0)
    ∧ ((UpdateDrillParams d).m_board.plotOptions.useAuxOrigin = true
        ↔ d.m_Choice_Drill_Offset.selection ≠ 0)
    ∧ ∃ d1 evs, GenDrillAndMapFiles env d aGenDrill aGenMap = some (d1, evs)
        ∧ d1.m_FileDrillOffset = (UpdateDrillParams d).m_FileDrillOffset
        ∧ (∀ mi mh off mg, Event.EXCELLON_SetOptions mi mh off mg ∈ evs →
            off = (UpdateDrillParams d).m_FileDrillOffset)
        ∧ (∀ off, Event.GERBER_SetOptions off ∈ evs →
            off = (UpdateDrillParams d).m_FileDrillOffset)
        ∧ ((ensureOutputDirectory env d).1 = true →
            (d.m_drillFileType = 0 →
              Event.EXCELLON_SetOptions d.m_Check_Mirror.value d.m_Check_Minimal.value
                (UpdateDrillParams d).m_FileDrillOffset d.m_Check_Merge_PTH_NPTH.value ∈ evs)
            ∧ (d.m_drillFileType ≠ 0 →
              Event.GERBER_SetOptions (UpdateDrillParams d).m_FileDrillOffset ∈ evs)) := by
  have haux : (UpdateDrillParams d).m_drillOriginIsAuxAxis
      = decide (d.m_Choice_Drill_Offset.selection ≠ 0) := rfl
  have hplot : (UpdateDrillParams d).m_plotOpts.useAuxOrigin
      = decide (d.m_Choice_Drill_Offset.selection ≠ 0) := rfl
  have hboard : (UpdateDrillParams d).m_board.plotOptions.useAuxOrigin
      = decide (d.m_Choice_Drill_Offset.selection ≠ 0) := rfl
  have hoff : (UpdateConfig d).m_FileDrillOffset = (UpdateDrillParams d).m_FileDrillOffset := rfl
  refine ⟨rfl, ?_, ?_, ?_, ?_⟩
  · rw [haux]; exact decide_eq_true_iff
  · rw [hplot]; exact decide_eq_true_iff
  · rw [hboard]; exact decide_eq_true_iff
  obtain ⟨fmt, hf⟩ := filefmt_mapChoice d.m_Choice_Drill_Map.selection
  by_cases hok : (ensureOutputDirectory env d).1 = true
  · by_cases ht : d.m_drillFileType = 0
    · refine ⟨_, _, GenDrillAndMapFiles_excellon env d aGenDrill aGenMap fmt hok ht hf, hoff,
        ?_, ?_, ?_⟩
      · intro mi mh off mg hmem
        simp only [List.mem_cons, Event.EXCELLON_SetOptions.injEq, List.mem_nil_iff,
          reduceCtorEq, false_or, or_false] at hmem
        rw [← hoff]
        exact hmem.2.2.1
      · intro off hmem
        simp at hmem
      · intro _
        refine ⟨fun _ => ?_, fun hne => absurd ht hne⟩
        have hrow : Event.EXCELLON_SetOptions d.m_Check_Mirror.value d.m_Check_Minimal.value
              (UpdateDrillParams d).m_FileDrillOffset d.m_Check_Merge_PTH_NPTH.value
            = Event.EXCELLON_SetOptions (UpdateConfig d).m_Mirror (UpdateConfig d).m_MinimalHeader
              (UpdateConfig d).m_FileDrillOffset (UpdateConfig d).m_Merge_PTH_NPTH := rfl
        rw [hrow]
        simp
    · refine ⟨_, _, GenDrillAndMapFiles_gerber env d aGenDrill aGenMap fmt hok ht hf, hoff,
        ?_, ?_, ?_⟩
      · intro mi mh off mg hmem
        simp at hmem
      · intro off hmem
        simp only [List.mem_cons, Event.GERBER_SetOptions.injEq, List.mem_nil_iff,
          reduceCtorEq, false_or, or_false] at hmem
        rw [← hoff]
        exact hmem
      · intro _
        refine ⟨fun h0 => absurd h0 ht, fun _ => ?_⟩
        rw [← hoff]
        simp
  · have hfail : (ensureOutputDirectory env d).1 = false := by simpa using hok
    refine ⟨_, _, GenDrillAndMapFiles_fail env d aGenDrill aGenMap hfail, hoff, ?_, ?_, ?_⟩
    · intro mi mh off mg hmem
      simp at hmem
    · intro off hmem
      simp at hmem
    · intro h
      exact absurd h hok

/-- Claim C9, as stated, fails for the mirror flag.  With an available directory and the
Gerber format, the calls made with the mirror box ticked and with it cleared are the same
six calls, none of which carries a mirror flag, whereas the Excellon writer is given
`true` in the first state and `false` in the second: no reading of the calls made on
the Gerber writer yields the flag the Excellon writer received. -/
theorem C9_counterexample :
    (GenDrillAndMapFiles (demoEnv true)
        { demoDialog with m_drillFileType := 1, m_Check_Mirror := ⟨true, true⟩ }
        true false).map Prod.snd
      = some [ Event.ClearMsgPanel,
               Event.EnsureFileDirectoryExists ⟨"", "", ""⟩ "demo.kicad_pcb",
               Event.GERBER_SetFormat 6,
               Event.GERBER_SetOptions ⟨0, 0⟩,
               Event.GERBER_SetMapFileFormat PlotFormat.PLOT_FORMAT_POST,
               Event.GERBER_CreateDrillandMapFilesSet "" true false ]
    ∧ (GenDrillAndMapFiles (demoEnv true)
        { demoDialog with m_drillFileType := 1, m_Check_Mirror := ⟨false, true⟩ }
        true false).map Prod.snd
      = (GenDrillAndMapFiles (demoEnv true)
          { demoDialog with m_drillFileType := 1, m_Check_Mirror := ⟨true, true⟩ }
          true false).map Prod.snd
    ∧ (GenDrillAndMapFiles (demoEnv true)
        { demoDialog with m_drillFileType := 0, m_Check_Mirror := ⟨true, true⟩ }
        true false).map Prod.snd
      = some [ Event.ClearMsgPanel,
               Event.EnsureFileDirectoryExists ⟨"", "", ""⟩ "demo.kicad_pcb",
               Event.EXCELLON_SetFormat true 0 3 3,
               Event.EXCELLON_SetOptions true false ⟨0, 0⟩ false,
               Event.EXCELLON_SetRouteModeForOvalHoles true,
               Event.EXCELLON_SetMapFileFormat PlotFormat.PLOT_FORMAT_POST,
               Event.EXCELLON_CreateDrillandMapFilesSet "" true false ]
    ∧ ¬ ∃ flagOf : Option (List Event) → Bool,
        flagOf ((GenDrillAndMapFiles (demoEnv true)
            { demoDialog with m_drillFileType := 1, m_Check_Mirror := ⟨true, true⟩ }
            true false).map Prod.snd) = true
        ∧ flagOf ((GenDrillAndMapFiles (demoEnv true)
            { demoDialog with m_drillFileType := 1, m_Check_Mirror := ⟨false, true⟩ }
            true false).map Prod.snd) = false := by
  have hsame :
      (GenDrillAndMapFiles (demoEnv true)
          { demoDialog with m_drillFileType := 1, m_Check_Mirror := ⟨false, true⟩ }
          true false).map Prod.snd
        = (GenDrillAndMapFiles (demoEnv true)
            { demoDialog with m_drillFileType := 1, m_Check_Mirror := ⟨true, true⟩ }
            true false).map Prod.snd := rfl
  refine ⟨rfl, hsame, rfl, ?_⟩
  rintro ⟨flagOf, h1, h2⟩
  rw [hsame, h1] at h2
  exact Bool.noConfusion h2

/-- Claim C9, amended.  The origin offset applies to the Gerber variant identically to the
Excellon variant: for every options state with an available output directory, the offset
given to the Gerber writer (file type `t`, not 0) in `SetOptions` is the offset given to
the Excellon writer (file type 0) for the same state, namely `m_FileDrillOffset`.  The
mirror-Y flag is given to the Excellon writer only, as the state of the mirror box; the
calls made on the Gerber writer are the same whatever that box holds. -/
theorem C9_same_offset_mirror_excellon_only (env : Env) (d : DIALOG_GENDRILL)
    (aGenDrill aGenMap : Bool) (t : Int) (ht : t ≠ 0)
    (hok : (ensureOutputDirectory env d).1 = true) :
    ∃ dE evsE dG evsG,
      GenDrillAndMapFiles env { d with m_drillFileType := 0 } aGenDrill aGenMap = some (dE, evsE)
      ∧ GenDrillAndMapFiles env { d with m_drillFileType := t } aGenDrill aGenMap
          = some (dG, evsG)
      ∧ Event.EXCELLON_SetOptions d.m_Check_Mirror.value d.m_Check_Minimal.value
          (UpdateDrillParams d).m_FileDrillOffset d.m_Check_Merge_PTH_NPTH.value ∈ evsE
      ∧ Event.GERBER_SetOptions (UpdateDrillParams d).m_FileDrillOffset ∈ evsG
      ∧ (∀ mi mh off mg, Event.EXCELLON_SetOptions mi mh off mg ∈ evsE →
          mi = d.m_Check_Mirror.value ∧ Event.GERBER_SetOptions off ∈ evsG)
      ∧ (∀ off, Event.GERBER_SetOptions off ∈ evsG →
          ∃ mi mh mg, Event.EXCELLON_SetOptions mi mh off mg ∈ evsE)
      ∧ (∀ b : Bool,
          (GenDrillAndMapFiles env
              { d with m_drillFileType := t, m_Check_Mirror := { d.m_Check_Mirror with value := b } }
              aGenDrill aGenMap).map Prod.snd = some evsG) := by
  obtain ⟨fmt, hf⟩ := filefmt_mapChoice d.m_Choice_Drill_Map.selection
  have hE := GenDrillAndMapFiles_excellon env { d with m_drillFileType := 0 } aGenDrill aGenMap
    fmt hok rfl hf
  have hG := GenDrillAndMapFiles_gerber env { d with m_drillFileType := t } aGenDrill aGenMap
    fmt hok ht hf
  have hEmem : Event.EXCELLON_SetOptions d.m_Check_Mirror.value d.m_Check_Minimal.value
      (UpdateDrillParams d).m_FileDrillOffset d.m_Check_Merge_PTH_NPTH.value
      ∈ [ Event.ClearMsgPanel,
          Event.EnsureFileDirectoryExists
            (env.DirName (UpdateConfig { d with m_drillFileType := 0 }).m_plotOpts.outputDirectory)
            (UpdateConfig { d with m_drillFileType := 0 }).m_board.fileName,
          Event.EXCELLON_SetFormat
            (decide ((UpdateConfig { d with m_drillFileType := 0 }).m_UnitDrillIsInch = 0))
            (UpdateConfig { d with m_drillFileType := 0 }).m_ZerosFormat
            (UpdateConfig { d with m_drillFileType := 0 }).m_Precision.m_lhs
            (UpdateConfig { d with m_drillFileType := 0 }).m_Precision.m_rhs,
          Event.EXCELLON_SetOptions (UpdateConfig { d with m_drillFileType := 0 }).m_Mirror
            (UpdateConfig { d with m_drillFileType := 0 }).m_MinimalHeader
            (UpdateConfig { d with m_drillFileType := 0 }).m_FileDrillOffset
            (UpdateConfig { d with m_drillFileType := 0 }).m_Merge_PTH_NPTH,
          Event.EXCELLON_SetRouteModeForOvalHoles
            (UpdateConfig { d with m_drillFileType := 0 }).m_UseRouteModeForOvalHoles,
          Event.EXCELLON_SetMapFileFormat fmt,
          Event.EXCELLON_CreateDrillandMapFilesSet
            (env.GetFullPath (ensureOutputDirectory env { d with m_drillFileType := 0 }).2)
            aGenDrill aGenMap ] :=
    List.mem_cons_of_mem _ (List.mem_cons_of_mem _ (List.mem_cons_of_mem _
      (List.mem_cons_self _ _)))
  have hGmem : Event.GERBER_SetOptions (UpdateDrillParams d).m_FileDrillOffset
      ∈ [ Event.ClearMsgPanel,
          Event.EnsureFileDirectoryExists
            (env.DirName (UpdateConfig { d with m_drillFileType := t }).m_plotOpts.outputDirectory)
            (UpdateConfig { d with m_drillFileType := t }).m_board.fileName,
          Event.GERBER_SetFormat
            (UpdateConfig { d with m_drillFileType := t }).m_plotOpts.gerberPrecision,
          Event.GERBER_SetOptions (UpdateConfig { d with m_drillFileType := t }).m_FileDrillOffset,
          Event.GERBER_SetMapFileFormat fmt,
          Event.GERBER_CreateDrillandMapFilesSet
            (env.GetFullPath (ensureOutputDirectory env { d with m_drillFileType := t }).2)
            aGenDrill aGenMap ] :=
    List.mem_cons_of_mem _ (List.mem_cons_of_mem _ (List.mem_cons_of_mem _
      (List.mem_cons_self _ _)))
  refine ⟨_, _, _, _, hE, hG, hEmem, hGmem, ?_, ?_, ?_⟩
  · intro mi mh off mg hmem
    simp only [List.mem_cons, Event.EXCELLON_SetOptions.injEq, List.mem_nil_iff,
      reduceCtorEq, false_or, or_false] at hmem
    obtain ⟨hmi, _, hoff, _⟩ := hmem
    have hoff2 : off = (UpdateDrillParams d).m_FileDrillOffset := hoff
    rw [hoff2]
    exact ⟨hmi, hGmem⟩
  · intro off hmem
    simp only [List.mem_cons, Event.GERBER_SetOptions.injEq, List.mem_nil_iff,
      reduceCtorEq, false_or, or_false] at hmem
    have hoff2 : off = (UpdateDrillParams d).m_FileDrillOffset := hmem
    rw [hoff2]
    exact ⟨_, _, _, hEmem⟩
  · intro b
    have hGb := GenDrillAndMapFiles_gerber env
      { d with m_drillFileType := t, m_Check_Mirror := { d.m_Check_Mirror with value := b } }
      aGenDrill aGenMap fmt hok ht hf
    rw [hGb]
    rfl

/-- Claim C9 amended, at a concrete input: the auxiliary origin (1000, 2000) is chosen, the
mirror box is ticked, and the Gerber file type is 1. -/
theorem C9_same_offset_mirror_excellon_only_witness :
    ∃ dE evsE dG evsG,
      GenDrillAndMapFiles (demoEnv true)
          { demoDialog with
            m_Choice_Drill_Offset := ⟨1, true⟩, m_Check_Mirror := ⟨true, true⟩,
            m_drillFileType := 0 } true false = some (dE, evsE)
      ∧ GenDrillAndMapFiles (demoEnv true)
          { demoDialog with
            m_Choice_Drill_Offset := ⟨1, true⟩, m_Check_Mirror := ⟨true, true⟩,
            m_drillFileType := 1 } true false = some (dG, evsG)
      ∧ Event.EXCELLON_SetOptions true false ⟨1000, 2000⟩ false ∈ evsE
      ∧ Event.GERBER_SetOptions ⟨1000, 2000⟩ ∈ evsG := by
  obtain ⟨dE, evsE, dG, evsG, hE, hG, h1, h2, _⟩ :=
    C9_same_offset_mirror_excellon_only (demoEnv true)
      { demoDialog with m_Choice_Drill_Offset := ⟨1, true⟩, m_Check_Mirror := ⟨true, true⟩ }
      true false 1 (by decide) rfl
  exact ⟨dE, evsE, dG, evsG, hE, hG, h1, h2⟩

/-- Claim C10.  When `EnsureFileDirectoryExists` fails for the output directory,
`GenDrillAndMapFiles` reports the failure with `DisplayError` and returns: whatever
`aGenDrill`, `aGenMap` and `m_drillFileType` are, the calls it made are `ClearMsgPanel`,
the directory check and `DisplayError`, none of them a call on a writer, so
`CreateDrillandMapFilesSet` is called on neither writer. -/
theorem C10_directory_failure (env : Env) (d : DIALOG_GENDRILL) (aGenDrill aGenMap : Bool)
    (hfail : (ensureOutputDirectory env d).1 = false) :
    ∃ d1 evs, GenDrillAndMapFiles env d aGenDrill aGenMap = some (d1, evs)
      ∧ evs = [ Event.ClearMsgPanel,
                Event.EnsureFileDirectoryExists
                  (env.DirName (UpdateConfig d).m_plotOpts.outputDirectory)
                  (UpdateConfig d).m_board.fileName,
                Event.DisplayError (env.GetPath (ensureOutputDirectory env d).2) ]
      ∧ (∀ e ∈ evs, isWriterCall e = false)
      ∧ (∀ dir g m, Event.EXCELLON_CreateDrillandMapFilesSet dir g m ∉ evs
          ∧ Event.GERBER_CreateDrillandMapFilesSet dir g m ∉ evs) := by
  refine ⟨_, _, GenDrillAndMapFiles_fail env d aGenDrill aGenMap hfail, rfl, ?_, ?_⟩
  · intro e he
    simp only [List.mem_cons, List.mem_nil_iff, or_false] at he
    rcases he with rfl | rfl | rfl <;> rfl
  · intro dir g m
    simp

/-- Claim C10 at a concrete input: the directory helper fails, the Gerber format is
selected and both files are requested. -/
theorem C10_directory_failure_witness :
    (ensureOutputDirectory (demoEnv false) { demoDialog with m_drillFileType := 1 }).1 = false
    ∧ ∃ d1 evs,
        GenDrillAndMapFiles (demoEnv false) { demoDialog with m_drillFileType := 1 } true true
          = some (d1, evs)
        ∧ evs = [ Event.ClearMsgPanel,
                  Event.EnsureFileDirectoryExists ⟨"", "", ""⟩ "demo.kicad_pcb",
                  Event.DisplayError "" ]
        ∧ ∀ e ∈ evs, isWriterCall e = false := by
  obtain ⟨d1, evs, hrun, hevs, hnone, _⟩ :=
    C10_directory_failure (demoEnv false) { demoDialog with m_drillFileType := 1 } true true rfl
  exact ⟨rfl, d1, evs, hrun, hevs, hnone⟩

/-! ## What `OnGenReportFile` does, case by case -/

/-- The dialog state after `OnGenReportFile` is the one `UpdateConfig` leaves. -/
theorem OnGenReportFile_state (env : Env) (d : DIALOG_GENDRILL) :
    (OnGenReportFile env d).1 = UpdateConfig d := by
  unfold OnGenReportFile
  simp only []
  split
  · rfl
  · split <;> rfl

/-- The save dialog is cancelled: nothing happens after it. -/
theorem OnGenReportFile_cancel (env : Env) (d : DIALOG_GENDRILL)
    (hans : reportDialogAnswer env d = none) :
    (OnGenReportFile env d).2
      = [Event.wxFileDialog_ShowModal (reportDefaultPath env d) (reportDefaultName env d)] := by
  unfold reportDialogAnswer reportDefaultPath reportDefaultName at hans
  unfold OnGenReportFile reportDefaultPath reportDefaultName
  simp only [hans]

/-- The save dialog is accepted and the Excellon format is selected. -/
theorem OnGenReportFile_excellon (env : Env) (d : DIALOG_GENDRILL) (path : String)
    (hans : reportDialogAnswer env d = some path) (ht : d.m_drillFileType = 0) :
    (OnGenReportFile env d).2
      = [ Event.wxFileDialog_ShowModal (reportDefaultPath env d) (reportDefaultName env d),
          Event.EXCELLON_SetMergeOption d.m_Check_Merge_PTH_NPTH.value,
          Event.EXCELLON_GenDrillReportFile path,
          Event.AppendText
            (reportMessage
              (env.EXCELLON_GenDrillReportFile (UpdateConfig d).m_board
                d.m_Check_Merge_PTH_NPTH.value path) path) ] := by
  have h1 : (UpdateConfig d).m_drillFileType = d.m_drillFileType := rfl
  have h2 : (UpdateConfig d).m_Merge_PTH_NPTH = d.m_Check_Merge_PTH_NPTH.value := rfl
  unfold reportDialogAnswer reportDefaultPath reportDefaultName at hans
  unfold OnGenReportFile reportDefaultPath reportDefaultName
  simp only [hans, h1, h2, ht, if_true, List.cons_append, List.nil_append]

/-- The save dialog is accepted and the Gerber format is selected. -/
theorem OnGenReportFile_gerber (env : Env) (d : DIALOG_GENDRILL) (path : String)
    (hans : reportDialogAnswer env d = some path) (ht : d.m_drillFileType ≠ 0) :
    (OnGenReportFile env d).2
      = [ Event.wxFileDialog_ShowModal (reportDefaultPath env d) (reportDefaultName env d),
          Event.GERBER_GenDrillReportFile path,
          Event.AppendText
            (reportMessage (env.GERBER_GenDrillReportFile (UpdateConfig d).m_board path) path) ] := by
  have h1 : (UpdateConfig d).m_drillFileType = d.m_drillFileType := rfl
  unfold reportDialogAnswer reportDefaultPath reportDefaultName at hans
  unfold OnGenReportFile reportDefaultPath reportDefaultName
  simp only [hans, h1, ht, if_false, List.cons_append, List.nil_append]

/-- The dialog state after `GenDrillAndMapFiles` is the one `UpdateConfig` leaves. -/
theorem GenDrillAndMapFiles_state (env : Env) (d : DIALOG_GENDRILL) (aGenDrill aGenMap : Bool) :
    ∃ evs, GenDrillAndMapFiles env d aGenDrill aGenMap = some (UpdateConfig d, evs) := by
  obtain ⟨fmt, hf⟩ := filefmt_mapChoice d.m_Choice_Drill_Map.selection
  by_cases hok : (ensureOutputDirectory env d).1 = true
  · by_cases ht : d.m_drillFileType = 0
    · exact ⟨_, GenDrillAndMapFiles_excellon env d aGenDrill aGenMap fmt hok ht hf⟩
    · exact ⟨_, GenDrillAndMapFiles_gerber env d aGenDrill aGenMap fmt hok ht hf⟩
  · have hfail : (ensureOutputDirectory env d).1 = false := by simpa using hok
    exact ⟨_, GenDrillAndMapFiles_fail env d aGenDrill aGenMap hfail⟩

/-! ## The board, the report and the counters again: claims C11 to C14 -/

/-- Claim C11, as stated, fails: with the drill-offset choice at 1 and a board whose stored
use-aux-origin flag is `false`, the board after `GenDrillAndMapFiles` and the board after
`OnGenReportFile` hold the flag `true`, so neither equals the board before the call. -/
theorem C11_counterexample :
    ({ demoDialog with m_Choice_Drill_Offset := ⟨1, true⟩ } : DIALOG_GENDRILL).m_board.plotOptions.useAuxOrigin
        = false
    ∧ (GenDrillAndMapFiles (demoEnv true)
          { demoDialog with m_Choice_Drill_Offset := ⟨1, true⟩ } true false).map
        (fun r => r.1.m_board.plotOptions.useAuxOrigin) = some true
    ∧ (OnGenReportFile (demoEnv true)
          { demoDialog with m_Choice_Drill_Offset := ⟨1, true⟩ }).1.m_board.plotOptions.useAuxOrigin
        = true
    ∧ (OnGenReportFile (demoEnv true)
          { demoDialog with m_Choice_Drill_Offset := ⟨1, true⟩ }).1.m_board
        ≠ ({ demoDialog with m_Choice_Drill_Offset := ⟨1, true⟩ } : DIALOG_GENDRILL).m_board := by
  refine ⟨rfl, rfl, ?_, ?_⟩
  · rw [OnGenReportFile_state]
    rfl
  · rw [OnGenReportFile_state]
    intro h
    have h2 := congrArg (fun b : BOARD => b.plotOptions.useAuxOrigin) h
    exact Bool.noConfusion h2

/-- Claim C11, amended.  `GenDrillAndMapFiles` and `OnGenReportFile` leave the board's
module list, track list and file name as they were and store the dialog's plot options in
the board: afterwards its output directory is the text of the directory box with every
backslash replaced by a slash, its use-aux-origin flag is true exactly when the
drill-offset choice is not 0, and its Gerber precision is that of the dialog's plot
options. -/
theorem C11_board_after_generation (env : Env) (d : DIALOG_GENDRILL)
    (aGenDrill aGenMap : Bool) :
    (∃ d1 evs, GenDrillAndMapFiles env d aGenDrill aGenMap = some (d1, evs)
        ∧ d1.m_board
          = { d.m_board with
              plotOptions :=
                { outputDirectory := replaceBackslashes d.m_outputDirectoryName.value
                  useAuxOrigin := decide (d.m_Choice_Drill_Offset.selection ≠ 0)
                  gerberPrecision := d.m_plotOpts.gerberPrecision } }
        ∧ d1.m_board.m_Modules = d.m_board.m_Modules
        ∧ d1.m_board.m_Track = d.m_board.m_Track
        ∧ d1.m_board.fileName = d.m_board.fileName)
    ∧ (OnGenReportFile env d).1.m_board
        = { d.m_board with
            plotOptions :=
              { outputDirectory := replaceBackslashes d.m_outputDirectoryName.value
                useAuxOrigin := decide (d.m_Choice_Drill_Offset.selection ≠ 0)
                gerberPrecision := d.m_plotOpts.gerberPrecision } }
    ∧ (OnGenReportFile env d).1.m_board.m_Modules = d.m_board.m_Modules
    ∧ (OnGenReportFile env d).1.m_board.m_Track = d.m_board.m_Track
    ∧ (OnGenReportFile env d).1.m_board.fileName = d.m_board.fileName := by
  obtain ⟨evs, hrun⟩ := GenDrillAndMapFiles_state env d aGenDrill aGenMap
  refine ⟨⟨_, _, hrun, rfl, rfl, rfl, rfl⟩, ?_, ?_, ?_, ?_⟩ <;>
  · rw [OnGenReportFile_state]
    rfl

/-- Claim C12, as stated, fails for the Gerber format.  With the save dialog accepted, the
calls of `OnGenReportFile` under the Gerber format are the same three calls whether the
merge box is ticked or cleared, and none of them sets a merge option, whereas under the
Excellon format the writer receives `SetMergeOption( true )`: no reading of the calls made
for the Gerber report yields the flag `m_Merge_PTH_NPTH`. -/
theorem C12_counterexample :
    (OnGenReportFile (demoEnv true)
        { demoDialog with m_drillFileType := 1, m_Check_Merge_PTH_NPTH := ⟨true, true⟩ }).2
      = [ Event.wxFileDialog_ShowModal "Documents" "demo-drl.rpt",
          Event.GERBER_GenDrillReportFile "Documents/demo-drl.rpt",
          Event.AppendText "Report file Documents/demo-drl.rpt created\n" ]
    ∧ (OnGenReportFile (demoEnv true)
        { demoDialog with m_drillFileType := 1, m_Check_Merge_PTH_NPTH := ⟨false, true⟩ }).2
      = (OnGenReportFile (demoEnv true)
          { demoDialog with m_drillFileType := 1, m_Check_Merge_PTH_NPTH := ⟨true, true⟩ }).2
    ∧ (OnGenReportFile (demoEnv true)
        { demoDialog with m_drillFileType := 0, m_Check_Merge_PTH_NPTH := ⟨true, true⟩ }).2
      = [ Event.wxFileDialog_ShowModal "Documents" "demo-drl.rpt",
          Event.EXCELLON_SetMergeOption true,
          Event.EXCELLON_GenDrillReportFile "Documents/demo-drl.rpt",
          Event.AppendText "Report file Documents/demo-drl.rpt created\n" ]
    ∧ ¬ ∃ mergeOf : List Event → Bool,
        mergeOf (OnGenReportFile (demoEnv true)
            { demoDialog with m_drillFileType := 1, m_Check_Merge_PTH_NPTH := ⟨true, true⟩ }).2
          = true
        ∧ mergeOf (OnGenReportFile (demoEnv true)
            { demoDialog with m_drillFileType := 1, m_Check_Merge_PTH_NPTH := ⟨false, true⟩ }).2
          = false := by
  have hsame :
      (OnGenReportFile (demoEnv true)
          { demoDialog with m_drillFileType := 1, m_Check_Merge_PTH_NPTH := ⟨false, true⟩ }).2
        = (OnGenReportFile (demoEnv true)
            { demoDialog with m_drillFileType := 1, m_Check_Merge_PTH_NPTH := ⟨true, true⟩ }).2 := by
    decide
  refine ⟨by decide, hsame, by decide, ?_⟩
  rintro ⟨mergeOf, h1, h2⟩
  rw [hsame, h1] at h2
  exact Bool.noConfusion h2

/-- Claim C12, amended.  When the save dialog is accepted, `OnGenReportFile` shows the same
default directory and file name and hands the same path to `GenDrillReportFile` for both
drill formats.  Under the Excellon format (file type 0) it first sets the merge option of
the writer to `m_Merge_PTH_NPTH`, the state of the merge box; under the Gerber format (file
type `t`, not 0) it sets no merge option and its calls are the same whatever the merge box
holds. -/
theorem C12_report_merge_option (env : Env) (d : DIALOG_GENDRILL) (t : Int) (ht : t ≠ 0)
    (path : String) (hans : reportDialogAnswer env d = some path) :
    (OnGenReportFile env { d with m_drillFileType := 0 }).2
      = [ Event.wxFileDialog_ShowModal (reportDefaultPath env d) (reportDefaultName env d),
          Event.EXCELLON_SetMergeOption d.m_Check_Merge_PTH_NPTH.value,
          Event.EXCELLON_GenDrillReportFile path,
          Event.AppendText
            (reportMessage
              (env.EXCELLON_GenDrillReportFile (UpdateConfig d).m_board
                d.m_Check_Merge_PTH_NPTH.value path) path) ]
    ∧ (OnGenReportFile env { d with m_drillFileType := 0 }).1.m_Merge_PTH_NPTH
        = d.m_Check_Merge_PTH_NPTH.value
    ∧ (OnGenReportFile env { d with m_drillFileType := t }).2
      = [ Event.wxFileDialog_ShowModal (reportDefaultPath env d) (reportDefaultName env d),
          Event.GERBER_GenDrillReportFile path,
          Event.AppendText
            (reportMessage (env.GERBER_GenDrillReportFile (UpdateConfig d).m_board path) path) ]
    ∧ (∀ b : Bool,
        (OnGenReportFile env
            { d with
              m_drillFileType := t
              m_Check_Merge_PTH_NPTH := { d.m_Check_Merge_PTH_NPTH with value := b } }).2
          = (OnGenReportFile env { d with m_drillFileType := t }).2) := by
  have hE := OnGenReportFile_excellon env { d with m_drillFileType := 0 } path hans rfl
  have hG := OnGenReportFile_gerber env { d with m_drillFileType := t } path hans ht
  refine ⟨hE, ?_, hG, ?_⟩
  · rw [OnGenReportFile_state]
    rfl
  · intro b
    have hGb := OnGenReportFile_gerber env
      { d with
        m_drillFileType := t
        m_Check_Merge_PTH_NPTH := { d.m_Check_Merge_PTH_NPTH with value := b } } path hans ht
    rw [hGb, hG]
    rfl

/-- Claim C12 amended, at a concrete input: the merge box ticked, the Gerber file type 1 and
the save dialog accepted on "Documents/demo-drl.rpt". -/
theorem C12_report_merge_option_witness :
    (OnGenReportFile (demoEnv true)
        { demoDialog with m_Check_Merge_PTH_NPTH := ⟨true, true⟩, m_drillFileType := 0 }).2
      = [ Event.wxFileDialog_ShowModal "Documents" "demo-drl.rpt",
          Event.EXCELLON_SetMergeOption true,
          Event.EXCELLON_GenDrillReportFile "Documents/demo-drl.rpt",
          Event.AppendText "Report file Documents/demo-drl.rpt created\n" ]
    ∧ (OnGenReportFile (demoEnv true)
        { demoDialog with m_Check_Merge_PTH_NPTH := ⟨true, true⟩, m_drillFileType := 1 }).2
      = [ Event.wxFileDialog_ShowModal "Documents" "demo-drl.rpt",
          Event.GERBER_GenDrillReportFile "Documents/demo-drl.rpt",
          Event.AppendText "Report file Documents/demo-drl.rpt created\n" ] := by
  have h := C12_report_merge_option (demoEnv true)
    { demoDialog with m_Check_Merge_PTH_NPTH := ⟨true, true⟩ } 1 (by decide)
    "Documents/demo-drl.rpt" (by decide)
  refine ⟨h.1.trans (by decide), h.2.2.1.trans (by decide)⟩

/-- Claim C13.  For every board file name with base name `B`, the default file name that
`OnGenReportFile` proposes in its save dialog (the first call it makes) is `B`, then
"-drl", then a dot and the fixed `ReportFileExtension` (no dot when that constant is
empty).  It is built from `B` and the constant alone: the directory and the extension of
the board file take no part in it, and it is the same for every drill file type. -/
theorem C13_report_default_name (env : Env) (d : DIALOG_GENDRILL) :
    reportDefaultName env d
        = (if env.ReportFileExtension = "" then
            (env.fileNameOf d.m_board.fileName).name ++ "-drl"
          else
            (env.fileNameOf d.m_board.fileName).name ++ "-drl" ++ "." ++ env.ReportFileExtension)
    ∧ (OnGenReportFile env d).2.head?
        = some (Event.wxFileDialog_ShowModal (reportDefaultPath env d) (reportDefaultName env d))
    ∧ (∀ t : Int,
        (OnGenReportFile env { d with m_drillFileType := t }).2.head?
          = some (Event.wxFileDialog_ShowModal (reportDefaultPath env d)
              (reportDefaultName env d)))
    ∧ (∀ dirPart extPart : String,
        ((({ (env.fileNameOf d.m_board.fileName) with
              path := dirPart, ext := extPart } : wxFileName).SetName
            (({ (env.fileNameOf d.m_board.fileName) with
                path := dirPart, ext := extPart } : wxFileName).GetName ++ "-drl")).SetExt
          env.ReportFileExtension).GetFullName = reportDefaultName env d) := by
  have hhead : ∀ d0 : DIALOG_GENDRILL,
      (OnGenReportFile env d0).2.head?
        = some (Event.wxFileDialog_ShowModal (reportDefaultPath env d0)
            (reportDefaultName env d0)) := by
    intro d0
    cases hans : reportDialogAnswer env d0 with
    | none => rw [OnGenReportFile_cancel env d0 hans]; rfl
    | some path =>
      by_cases ht : d0.m_drillFileType = 0
      · rw [OnGenReportFile_excellon env d0 path hans ht]; rfl
      · rw [OnGenReportFile_gerber env d0 path hans ht]; rfl
  refine ⟨rfl, hhead d, fun t => hhead { d with m_drillFileType := t }, fun _ _ => rfl⟩

/-- The handler `onFileFormatSelection` leaves the board alone. -/
theorem onFileFormatSelection_board (env : Env) (d : DIALOG_GENDRILL) :
    (onFileFormatSelection env d).m_board = d.m_board := by
  unfold onFileFormatSelection
  cases d.m_rbExcellon.value <;> rfl

/-- The function `InitDisplayParams` leaves the board alone. -/
theorem InitDisplayParams_board (env : Env) (d : DIALOG_GENDRILL) :
    (InitDisplayParams env d).m_board = d.m_board := by
  unfold InitDisplayParams
  rw [onFileFormatSelection_board]
  rfl

/-- Claim C14.  `InitDisplayParams` resets the five counters before counting: whatever the
counters held before the call, the counts after it are those of the counting loops started
from zero on the board, so calling it on a dialog whose counters were set to anything,
calling it twice, or calling it any positive number of times on an unchanged board gives
the same five counts as calling it once. -/
theorem C14_counting_reproducible (env : Env) (d : DIALOG_GENDRILL) :
    (∀ c0 : HoleCounts,
        (InitDisplayParams env { d with counts := c0 }).counts = (InitDisplayParams env d).counts)
    ∧ (InitDisplayParams env (InitDisplayParams env d)).counts = (InitDisplayParams env d).counts
    ∧ (∀ n : Nat,
        ((InitDisplayParams env)^[n + 1] d).counts = (InitDisplayParams env d).counts)
    ∧ (InitDisplayParams env d).counts
        = d.m_board.m_Track.foldl countTrack
            (d.m_board.m_Modules.foldl countModule ⟨0, 0, 0, 0, 0⟩) := by
  have hiter : ∀ n : Nat, ((InitDisplayParams env)^[n] d).m_board = d.m_board := by
    intro n
    induction n with
    | zero => rfl
    | succ n ih =>
      rw [Function.iterate_succ_apply', InitDisplayParams_board, ih]
  refine ⟨?_, ?_, ?_, ?_⟩
  · intro c0
    rw [InitDisplayParams_counts, InitDisplayParams_counts]
  · rw [InitDisplayParams_counts, InitDisplayParams_counts, InitDisplayParams_board]
  · intro n
    rw [Function.iterate_succ_apply', InitDisplayParams_counts, InitDisplayParams_counts, hiter]
  · rw [InitDisplayParams_counts]
    rfl

/-! ## Buttons and widgets: claims C15, C16 and C18 to C20 -/

/-- Claim C15.  When the output directory is available, `GenDrillAndMapFiles` calls
`CreateDrillandMapFilesSet` exactly once: on the Excellon writer when `m_drillFileType` is
0 and on the Gerber writer for every other value, with `aGenDrill` and `aGenMap` as it
received them.  `OnGenDrillFile` is the call with (true, false) and `OnGenMapFile` the call
with (false, true). -/
theorem C15_one_writer_invoked (env : Env) (d : DIALOG_GENDRILL) (aGenDrill aGenMap : Bool)
    (hok : (ensureOutputDirectory env d).1 = true) :
    (∃ d1 evs, GenDrillAndMapFiles env d aGenDrill aGenMap = some (d1, evs)
        ∧ evs.filter isCreateCall
          = [ if d.m_drillFileType = 0 then
                Event.EXCELLON_CreateDrillandMapFilesSet
                  (env.GetFullPath (ensureOutputDirectory env d).2) aGenDrill aGenMap
              else
                Event.GERBER_CreateDrillandMapFilesSet
                  (env.GetFullPath (ensureOutputDirectory env d).2) aGenDrill aGenMap ])
    ∧ OnGenDrillFile env d = GenDrillAndMapFiles env d true false
    ∧ OnGenMapFile env d = GenDrillAndMapFiles env d false true := by
  obtain ⟨fmt, hf⟩ := filefmt_mapChoice d.m_Choice_Drill_Map.selection
  refine ⟨?_, rfl, rfl⟩
  by_cases ht : d.m_drillFileType = 0
  · refine ⟨_, _, GenDrillAndMapFiles_excellon env d aGenDrill aGenMap fmt hok ht hf, ?_⟩
    simp [List.filter, isCreateCall, ht]
  · refine ⟨_, _, GenDrillAndMapFiles_gerber env d aGenDrill aGenMap fmt hok ht hf, ?_⟩
    simp [List.filter, isCreateCall, ht]

/-- Claim C15 at a concrete input: the drill button with the Gerber file type 1 and an
available directory makes one call, on the Gerber writer, for the drill file only. -/
theorem C15_one_writer_invoked_witness :
    ∃ d1 evs, OnGenDrillFile (demoEnv true) { demoDialog with m_drillFileType := 1 }
        = some (d1, evs)
      ∧ evs.filter isCreateCall = [Event.GERBER_CreateDrillandMapFilesSet "" true false] := by
  obtain ⟨⟨d1, evs, hrun, hcalls⟩, hdrill, _⟩ :=
    C15_one_writer_invoked (demoEnv true) { demoDialog with m_drillFileType := 1 } true false rfl
  exact ⟨d1, evs, hdrill.trans hrun, hcalls⟩

/-- Claim C16.  In `UpdatePrecisionOptions` the precision display is disabled exactly when
the zeros-format selection equals `EXCELLON_WRITER::DECIMAL_FORMAT` and enabled for every
other selection, whatever the unit selection is. -/
theorem C16_precision_enabled (env : Env) (d : DIALOG_GENDRILL) :
    ((UpdatePrecisionOptions env d).m_staticTextPrecision.enabled = false
        ↔ d.m_Choice_Zeros_Format.selection = EXCELLON_WRITER.DECIMAL_FORMAT)
    ∧ ((UpdatePrecisionOptions env d).m_staticTextPrecision.enabled = true
        ↔ d.m_Choice_Zeros_Format.selection ≠ EXCELLON_WRITER.DECIMAL_FORMAT)
    ∧ (∀ u : Int,
        (UpdatePrecisionOptions env
            { d with m_Choice_Unit := { d.m_Choice_Unit with selection := u } }).m_staticTextPrecision.enabled
          = (UpdatePrecisionOptions env d).m_staticTextPrecision.enabled) := by
  have hen : (UpdatePrecisionOptions env d).m_staticTextPrecision.enabled
      = (if d.m_Choice_Zeros_Format.selection = EXCELLON_WRITER.DECIMAL_FORMAT then false
         else true) := rfl
  refine ⟨?_, ?_, fun u => rfl⟩
  · rw [hen]
    by_cases h : d.m_Choice_Zeros_Format.selection = EXCELLON_WRITER.DECIMAL_FORMAT <;> simp [h]
  · rw [hen]
    by_cases h : d.m_Choice_Zeros_Format.selection = EXCELLON_WRITER.DECIMAL_FORMAT <;> simp [h]

/-- Claim C18, as stated, fails: with the unit choice at -1 (no selection),
`UpdatePrecisionOptions` shows the metric precision string, not the inches one, while
`UpdateDrillParams` resolves `m_UnitDrillIsInch` to 1 and `m_Precision` to
`precisionListForInches`. -/
theorem C18_counterexample :
    (UpdatePrecisionOptions (demoEnv true)
        { demoDialog with m_Choice_Unit := ⟨-1, true⟩ }).m_staticTextPrecision.label
      = (demoEnv true).GetPrecisionString precisionListForMetric
    ∧ (UpdatePrecisionOptions (demoEnv true)
        { demoDialog with m_Choice_Unit := ⟨-1, true⟩ }).m_staticTextPrecision.label
      ≠ (demoEnv true).GetPrecisionString precisionListForInches
    ∧ (UpdateDrillParams { demoDialog with m_Choice_Unit := ⟨-1, true⟩ }).m_UnitDrillIsInch = 1
    ∧ (UpdateDrillParams { demoDialog with m_Choice_Unit := ⟨-1, true⟩ }).m_Precision
      = precisionListForInches := by
  refine ⟨rfl, by decide, rfl, rfl⟩

/-- Claim C18, amended.  For the two selections of the unit choice, 0 (millimetres) and 1
(inches), the precision shown agrees with the precision used: `UpdatePrecisionOptions`
shows the string of the precision that `UpdateDrillParams` stores in `m_Precision`; at 1
that is `precisionListForInches` with `m_UnitDrillIsInch` true, at 0 it is
`precisionListForMetric` with `m_UnitDrillIsInch` false. -/
theorem C18_shown_precision_is_used (env : Env) (d : DIALOG_GENDRILL)
    (hs : d.m_Choice_Unit.selection = 0 ∨ d.m_Choice_Unit.selection = 1) :
    (UpdatePrecisionOptions env d).m_staticTextPrecision.label
        = env.GetPrecisionString (UpdateDrillParams d).m_Precision
    ∧ (d.m_Choice_Unit.selection = 1 →
        (UpdatePrecisionOptions env d).m_staticTextPrecision.label
            = env.GetPrecisionString precisionListForInches
        ∧ (UpdateDrillParams d).m_UnitDrillIsInch = 1
        ∧ (UpdateDrillParams d).m_Precision = precisionListForInches)
    ∧ (d.m_Choice_Unit.selection = 0 →
        (UpdatePrecisionOptions env d).m_staticTextPrecision.label
            = env.GetPrecisionString precisionListForMetric
        ∧ (UpdateDrillParams d).m_UnitDrillIsInch = 0
        ∧ (UpdateDrillParams d).m_Precision = precisionListForMetric) := by
  have hlabel : (UpdatePrecisionOptions env d).m_staticTextPrecision.label
      = (if d.m_Choice_Unit.selection = 1 then env.GetPrecisionString precisionListForInches
         else env.GetPrecisionString precisionListForMetric) := rfl
  have hunit : (UpdateDrillParams d).m_UnitDrillIsInch
      = (if d.m_Choice_Unit.selection = 0 then 0 else 1) := rfl
  have hprec : (UpdateDrillParams d).m_Precision
      = (if d.m_Choice_Unit.selection = 0 then precisionListForMetric
         else precisionListForInches) := (UpdateConfig_unit d).2
  rw [hlabel, hunit, hprec]
  rcases hs with h | h <;> simp [h]

/-- Claim C18 amended, at a concrete input: the unit choice at 1 (inches). -/
theorem C18_shown_precision_is_used_witness :
    (UpdatePrecisionOptions (demoEnv true)
        { demoDialog with m_Choice_Unit := ⟨1, true⟩ }).m_staticTextPrecision.label = "2:4"
    ∧ (UpdateDrillParams { demoDialog with m_Choice_Unit := ⟨1, true⟩ }).m_Precision
      = precisionListForInches := by
  have h := C18_shown_precision_is_used (demoEnv true)
    { demoDialog with m_Choice_Unit := ⟨1, true⟩ } (Or.inr rfl)
  exact ⟨(h.2.1 rfl).1.trans (by decide), (h.2.1 rfl).2.2⟩

/-- What `onFileFormatSelection` does not touch: the value of every widget that
`UpdateDrillParams` reads. -/
theorem onFileFormatSelection_widgets (env : Env) (d : DIALOG_GENDRILL) :
    (onFileFormatSelection env d).m_Check_Mirror.value = d.m_Check_Mirror.value
    ∧ (onFileFormatSelection env d).m_Check_Merge_PTH_NPTH.value = d.m_Check_Merge_PTH_NPTH.value
    ∧ (onFileFormatSelection env d).m_Check_Minimal.value = d.m_Check_Minimal.value
    ∧ (onFileFormatSelection env d).m_Choice_Zeros_Format.selection
        = d.m_Choice_Zeros_Format.selection
    ∧ (onFileFormatSelection env d).m_Choice_Drill_Map.selection = d.m_Choice_Drill_Map.selection
    ∧ (onFileFormatSelection env d).m_radioBoxOvalHoleMode.selection
        = d.m_radioBoxOvalHoleMode.selection
    ∧ (onFileFormatSelection env d).m_Choice_Unit.selection = d.m_Choice_Unit.selection := by
  unfold onFileFormatSelection
  cases d.m_rbExcellon.value <;> exact ⟨rfl, rfl, rfl, rfl, rfl, rfl, rfl⟩

/-- What `onFileFormatSelection` sets: the file type and the enabled state of the six
Excellon-only controls, all from the Excellon radio button. -/
theorem onFileFormatSelection_format (env : Env) (d : DIALOG_GENDRILL) :
    (onFileFormatSelection env d).m_drillFileType = (if d.m_rbExcellon.value then 0 else 1)
    ∧ (onFileFormatSelection env d).m_Choice_Unit.enabled = d.m_rbExcellon.value
    ∧ (onFileFormatSelection env d).m_Choice_Zeros_Format.enabled = d.m_rbExcellon.value
    ∧ (onFileFormatSelection env d).m_Check_Mirror.enabled = d.m_rbExcellon.value
    ∧ (onFileFormatSelection env d).m_Check_Minimal.enabled = d.m_rbExcellon.value
    ∧ (onFileFormatSelection env d).m_Check_Merge_PTH_NPTH.enabled = d.m_rbExcellon.value
    ∧ (onFileFormatSelection env d).m_radioBoxOvalHoleMode.enabled = d.m_rbExcellon.value := by
  unfold onFileFormatSelection
  cases d.m_rbExcellon.value <;> exact ⟨rfl, rfl, rfl, rfl, rfl, rfl, rfl⟩

/-- Claim C19.  With each widget returning the value last set on it, `InitDisplayParams`
followed by `UpdateDrillParams`, with no edit in between, leaves `m_Mirror`,
`m_Merge_PTH_NPTH`, `m_MinimalHeader`, `m_ZerosFormat`, `m_mapFileType` and
`m_UseRouteModeForOvalHoles` at their values before `InitDisplayParams`, and sets
`m_UnitDrillIsInch` to 1 if it was non-zero and to 0 if it was zero. -/
theorem C19_option_round_trip (env : Env) (d : DIALOG_GENDRILL) :
    (UpdateDrillParams (InitDisplayParams env d)).m_Mirror = d.m_Mirror
    ∧ (UpdateDrillParams (InitDisplayParams env d)).m_Merge_PTH_NPTH = d.m_Merge_PTH_NPTH
    ∧ (UpdateDrillParams (InitDisplayParams env d)).m_MinimalHeader = d.m_MinimalHeader
    ∧ (UpdateDrillParams (InitDisplayParams env d)).m_ZerosFormat = d.m_ZerosFormat
    ∧ (UpdateDrillParams (InitDisplayParams env d)).m_mapFileType = d.m_mapFileType
    ∧ (UpdateDrillParams (InitDisplayParams env d)).m_UseRouteModeForOvalHoles
        = d.m_UseRouteModeForOvalHoles
    ∧ (UpdateDrillParams (InitDisplayParams env d)).m_UnitDrillIsInch
        = (if d.m_UnitDrillIsInch ≠ 0 then 1 else 0) := by
  have hmirror : (UpdateDrillParams (InitDisplayParams env d)).m_Mirror
      = (InitDisplayParams env d).m_Check_Mirror.value := rfl
  have hmerge : (UpdateDrillParams (InitDisplayParams env d)).m_Merge_PTH_NPTH
      = (InitDisplayParams env d).m_Check_Merge_PTH_NPTH.value := rfl
  have hmin : (UpdateDrillParams (InitDisplayParams env d)).m_MinimalHeader
      = (InitDisplayParams env d).m_Check_Minimal.value := rfl
  have hzeros : (UpdateDrillParams (InitDisplayParams env d)).m_ZerosFormat
      = (InitDisplayParams env d).m_Choice_Zeros_Format.selection := rfl
  have hmap : (UpdateDrillParams (InitDisplayParams env d)).m_mapFileType
      = (InitDisplayParams env d).m_Choice_Drill_Map.selection := rfl
  have hroute : (UpdateDrillParams (InitDisplayParams env d)).m_UseRouteModeForOvalHoles
      = decide ((InitDisplayParams env d).m_radioBoxOvalHoleMode.selection = 0) := rfl
  have hunit : (UpdateDrillParams (InitDisplayParams env d)).m_UnitDrillIsInch
      = (if (InitDisplayParams env d).m_Choice_Unit.selection = 0 then 0 else 1) := rfl
  rw [hmirror, hmerge, hmin, hzeros, hmap, hroute, hunit]
  unfold InitDisplayParams
  simp only []
  rw [(onFileFormatSelection_widgets env _).1, (onFileFormatSelection_widgets env _).2.1,
    (onFileFormatSelection_widgets env _).2.2.1, (onFileFormatSelection_widgets env _).2.2.2.1,
    (onFileFormatSelection_widgets env _).2.2.2.2.1,
    (onFileFormatSelection_widgets env _).2.2.2.2.2.1,
    (onFileFormatSelection_widgets env _).2.2.2.2.2.2]
  refine ⟨rfl, rfl, rfl, rfl, rfl, ?_, ?_⟩
  · show decide ((if d.m_UseRouteModeForOvalHoles = true then (0 : Int) else 1) = 0)
      = d.m_UseRouteModeForOvalHoles
    cases d.m_UseRouteModeForOvalHoles <;> rfl
  · show (if (if d.m_UnitDrillIsInch ≠ 0 then (1 : Int) else 0) = 0 then (0 : Int) else 1)
      = (if d.m_UnitDrillIsInch ≠ 0 then 1 else 0)
    by_cases h : d.m_UnitDrillIsInch = 0 <;> simp [h]

/-- Claim C20.  With each radio button returning the value last set on it, for every
integer `v` of `m_drillFileType` (as read from the configuration by `initDialog`), after
`InitDisplayParams` the file type is 0 when `v = 0` and 1 for every other `v`, and each of
the six Excellon-only controls (unit, zeros format, mirror, minimal header, merge PTH/NPTH,
oval-hole mode) is enabled exactly when the file type is 0. -/
theorem C20_file_type_normalised (env : Env) (d : DIALOG_GENDRILL) (v : Int) :
    (InitDisplayParams env { d with m_drillFileType := v }).m_drillFileType
        = (if v = 0 then 0 else 1)
    ∧ (initDialog env
          { d with m_config := { d.m_config with DrillFileType := some v } }).m_drillFileType
        = (if v = 0 then 0 else 1)
    ∧ ((InitDisplayParams env { d with m_drillFileType := v }).m_drillFileType = 0 ↔ v = 0)
    ∧ ((InitDisplayParams env { d with m_drillFileType := v }).m_Choice_Unit.enabled = true
        ↔ (InitDisplayParams env { d with m_drillFileType := v }).m_drillFileType = 0)
    ∧ ((InitDisplayParams env { d with m_drillFileType := v }).m_Choice_Zeros_Format.enabled = true
        ↔ (InitDisplayParams env { d with m_drillFileType := v }).m_drillFileType = 0)
    ∧ ((InitDisplayParams env { d with m_drillFileType := v }).m_Check_Mirror.enabled = true
        ↔ (InitDisplayParams env { d with m_drillFileType := v }).m_drillFileType = 0)
    ∧ ((InitDisplayParams env { d with m_drillFileType := v }).m_Check_Minimal.enabled = true
        ↔ (InitDisplayParams env { d with m_drillFileType := v }).m_drillFileType = 0)
    ∧ ((InitDisplayParams env { d with m_drillFileType := v }).m_Check_Merge_PTH_NPTH.enabled = true
        ↔ (InitDisplayParams env { d with m_drillFileType := v }).m_drillFileType = 0)
    ∧ ((InitDisplayParams env { d with m_drillFileType := v }).m_radioBoxOvalHoleMode.enabled = true
        ↔ (InitDisplayParams env { d with m_drillFileType := v }).m_drillFileType = 0) := by
  have key : ∀ d0 : DIALOG_GENDRILL,
      (InitDisplayParams env d0).m_drillFileType = (if d0.m_drillFileType = 0 then 0 else 1)
      ∧ (InitDisplayParams env d0).m_Choice_Unit.enabled = decide (d0.m_drillFileType = 0)
      ∧ (InitDisplayParams env d0).m_Choice_Zeros_Format.enabled = decide (d0.m_drillFileType = 0)
      ∧ (InitDisplayParams env d0).m_Check_Mirror.enabled = decide (d0.m_drillFileType = 0)
      ∧ (InitDisplayParams env d0).m_Check_Minimal.enabled = decide (d0.m_drillFileType = 0)
      ∧ (InitDisplayParams env d0).m_Check_Merge_PTH_NPTH.enabled
          = decide (d0.m_drillFileType = 0)
      ∧ (InitDisplayParams env d0).m_radioBoxOvalHoleMode.enabled
          = decide (d0.m_drillFileType = 0) := by
    intro d0
    unfold InitDisplayParams
    simp only []
    rw [(onFileFormatSelection_format env _).1, (onFileFormatSelection_format env _).2.1,
      (onFileFormatSelection_format env _).2.2.1, (onFileFormatSelection_format env _).2.2.2.1,
      (onFileFormatSelection_format env _).2.2.2.2.1,
      (onFileFormatSelection_format env _).2.2.2.2.2.1,
      (onFileFormatSelection_format env _).2.2.2.2.2.2]
    refine ⟨?_, rfl, rfl, rfl, rfl, rfl, rfl⟩
    show (if decide (d0.m_drillFileType = 0) = true then (0 : Int) else 1)
      = (if d0.m_drillFileType = 0 then 0 else 1)
    by_cases h : d0.m_drillFileType = 0 <;> simp [h]
  obtain ⟨h0, h1, h2, h3, h4, h5, h6⟩ := key { d with m_drillFileType := v }
  have hv : ({ d with m_drillFileType := v } : DIALOG_GENDRILL).m_drillFileType = v := rfl
  rw [hv] at h0 h1 h2 h3 h4 h5 h6
  have hinit : (initDialog env
      { d with m_config := { d.m_config with DrillFileType := some v } }).m_drillFileType
        = (if v = 0 then 0 else 1) := by
    unfold initDialog
    simp only []
    rw [(key _).1]
    rfl
  rw [h0, h1, h2, h3, h4, h5, h6]
  refine ⟨rfl, hinit, ?_, ?_, ?_, ?_, ?_, ?_, ?_⟩ <;>
  · by_cases h : v = 0 <;> simp [h]

end GenDrill

/-! ## The File menu: claim C17 -/

namespace Eeschema

/-- Claim C17.  `prepareFilesMenu` adds the New, Open and Open Recent entries, followed by
a separator, exactly when `aIsOutsideProject` is true; the other entries, Save to Exit, are
added after them in the same order in both cases.  So the menu built with `false` is the
menu built with `true` without that leading group of four calls, and none of its entries
carries the identifier of New, of Open or of Open Recent. -/
theorem C17_files_menu_leading_group (env : MenuEnv) (aParentMenu : List MenuCall) :
    prepareFilesMenu env aParentMenu true
        = aParentMenu ++ leadingGroup env ++ prepareFilesMenu env [] false
    ∧ prepareFilesMenu env aParentMenu false = aParentMenu ++ prepareFilesMenu env [] false
    ∧ (leadingGroup env).map callId
        = [some MenuId.ID_NEW_PROJECT, some MenuId.ID_LOAD_PROJECT, some MenuId.minusOne, none]
    ∧ (prepareFilesMenu env [] false).map callId
        = [ some MenuId.ID_SAVE_PROJECT, some MenuId.ID_UPDATE_ONE_SHEET,
            some MenuId.ID_SAVE_ONE_SHEET_UNDER_NEW_NAME, none,
            some MenuId.ID_APPEND_PROJECT, some MenuId.ID_IMPORT_NON_KICAD_SCH, none,
            some MenuId.ID_GEN_IMPORT_FILE, some MenuId.ID_GEN_EXPORT_FILE, none,
            some MenuId.ID_SHEET_SET, some MenuId.wxID_PRINT, some MenuId.ID_GEN_PLOT_SCHEMATIC,
            none, some MenuId.wxID_EXIT ]
    ∧ (prepareFilesMenu env [] true).drop 4 = prepareFilesMenu env [] false
    ∧ (prepareFilesMenu env [] true).take 4 = leadingGroup env
    ∧ (∀ c ∈ prepareFilesMenu env [] false,
        callId c ≠ some MenuId.ID_NEW_PROJECT ∧ callId c ≠ some MenuId.ID_LOAD_PROJECT
        ∧ callId c ≠ some MenuId.minusOne) := by
  have hids : (prepareFilesMenu env [] false).map callId
      = [ some MenuId.ID_SAVE_PROJECT, some MenuId.ID_UPDATE_ONE_SHEET,
          some MenuId.ID_SAVE_ONE_SHEET_UNDER_NEW_NAME, none,
          some MenuId.ID_APPEND_PROJECT, some MenuId.ID_IMPORT_NON_KICAD_SCH, none,
          some MenuId.ID_GEN_IMPORT_FILE, some MenuId.ID_GEN_EXPORT_FILE, none,
          some MenuId.ID_SHEET_SET, some MenuId.wxID_PRINT, some MenuId.ID_GEN_PLOT_SCHEMATIC,
          none, some MenuId.wxID_EXIT ] := rfl
  refine ⟨?_, ?_, rfl, hids, rfl, rfl, ?_⟩
  · simp [prepareFilesMenu, leadingGroup]
  · simp [prepareFilesMenu]
  · intro c hc
    have hmem : callId c ∈ (prepareFilesMenu env [] false).map callId :=
      List.mem_map_of_mem callId hc
    rw [hids] at hmem
    refine ⟨?_, ?_, ?_⟩ <;>
    · intro h
      rw [h] at hmem
      simp at hmem

end Eeschema
